import Mathlib

/-!
# Contact form scripts of `domain_finder`

A shallow embedding of the three browser scripts

* `js/contact.js`          (the plain submit handler),
* `static/js/contact.js`   (the instrumented copy with the reCAPTCHA call and the
                            single-slot toast),
* `static/js/main.js`      (the appendable toast list and the validation helpers),

followed by the properties proved about them.

Modelling conventions.

* A JavaScript string that is measured or matched (`.length`, `.trim()`, `RegExp.test`)
  is the list of its UTF-16 code units (`JSString`).  Text that is only stored,
  compared or displayed (ids, field names, class tokens, messages, markup) is a `String`.
* The document is a record (`World`): the error containers keyed by the part of their id
  before `-errors`, the named form controls, the submit button, the two toast regions,
  the pending `setTimeout` timers, the clock, and the list of requests handed to `fetch`.
* Awaited collaborators (`grecaptcha.execute`, `fetch`, `response.json()`) are inputs of
  the handler that say how the awaited promise settled.  No timer callback is run while
  the handler waits for them.
* Form entries are strings or `null` (the controls are text inputs, no file entry).
* The named elements of the document are the controls of the form, and every id and name
  is carried by one element.
* The selector `[name="F"]` built from a field name `F` is the test for the name `F` when
  `F` holds no quote, backslash, line break or NUL; it is invalid when the first such
  code point of `F` is a line break, or a quote followed by letters and digits only; for
  any other `F` the browser decides (`exoticSelector`), and a selector that parses is
  taken to select a control of the form or nothing.
* A timer runs exactly when it is due; timers due at the same time run in the order in
  which they were registered.
-/

namespace DomainFinder

/-! ## Strings -/

/-- A JavaScript string as its sequence of UTF-16 code units. -/
abbrev JSString := List Nat

/-- UTF-16 encoding of one Unicode scalar value. -/
def utf16 (c : Char) : List Nat :=
  if c.toNat < 65536 then [c.toNat]
  else [55296 + (c.toNat - 65536) / 1024, 56320 + (c.toNat - 65536) % 1024]

/-- The code units of a string literal. -/
def js (s : String) : JSString := s.toList.flatMap utf16

/-- ECMAScript `WhiteSpace` and `LineTerminator` code points: the set removed by
`String.prototype.trim` and matched by the regular expression class `\s`. -/
def isWhiteSpace (c : Nat) : Bool :=
  c == 9 || c == 10 || c == 11 || c == 12 || c == 13 || c == 32 || c == 160 ||
  c == 5760 || (8192 ≤ c && c ≤ 8202) || c == 8232 || c == 8233 || c == 8239 ||
  c == 8287 || c == 12288 || c == 65279

/-- The method `String.prototype.trimStart`. -/
def trimStart (s : JSString) : JSString := s.dropWhile isWhiteSpace

/-- The method `String.prototype.trimEnd`. -/
def trimEnd (s : JSString) : JSString := (s.reverse.dropWhile isWhiteSpace).reverse

/-- The method `String.prototype.trim`. -/
def trim (s : JSString) : JSString := trimEnd (trimStart s)

/-! ## Regular expressions (the fragment used by `validateEmail`) -/

/-- One term of a pattern: a character class, taken once or under a greedy `+`.
An escaped literal such as `\.` is the class holding that one code unit. -/
inductive Term where
  | one (cls : Nat → Bool)
  | plus (cls : Nat → Bool)

/-- A pattern without flags: optional `^`, a sequence of terms, optional `$`. -/
structure RegExp where
  startAnchor : Bool
  terms : List Term
  endAnchor : Bool

/-- Backtracking match of a sequence of terms at the head of the input.  With the end
anchor the match must use up the input. -/
def matchHere (endAnchor : Bool) : List Term → List Nat → Bool
  | [], s => !endAnchor || s.isEmpty
  | _ :: _, [] => false
  | Term.one p :: ts, c :: s => p c && matchHere endAnchor ts s
  | Term.plus p :: ts, c :: s =>
      p c && (matchHere endAnchor (Term.plus p :: ts) s || matchHere endAnchor ts s)

/-- The method `RegExp.prototype.test` on a string: a match may start at any index, and only at
index 0 when the pattern starts with `^`. -/
def RegExp.test (re : RegExp) (s : JSString) : Bool :=
  if re.startAnchor then matchHere re.endAnchor re.terms s
  else s.tails.any (matchHere re.endAnchor re.terms)

/-- The class `[^\s@]`. -/
def notSpaceAt (c : Nat) : Bool := !(isWhiteSpace c || c == 64)

/-- The literal `@` (code unit 64). -/
def atSign (c : Nat) : Bool := c == 64

/-- The escaped literal `\.` (code unit 46). -/
def dot (c : Nat) : Bool := c == 46

/-! ## Validation helpers -/

/-- The function `validateRequired` of `js/contact.js`: `value && value.trim().length > 0`, read for
its truthiness.  `none` is `null` (no such form entry); the empty string is falsy. -/
def validateRequired (value : Option JSString) : Bool :=
  match value with
  | none => false
  | some s => !s.isEmpty && decide ((trim s).length > 0)

/-- The function `validateEmail` of `js/contact.js`: `/^[^\s@]+@[^\s@]+\.[^\s@]+$/.test(email)`. -/
def validateEmail (email : JSString) : Bool :=
  let re : RegExp :=
    ⟨true, [Term.plus notSpaceAt, Term.one atSign, Term.plus notSpaceAt, Term.one dot,
      Term.plus notSpaceAt], true⟩
  re.test email

/-- The function `validateEmail` of `static/js/contact.js`. -/
def validateEmailStaticContact (email : JSString) : Bool :=
  let re : RegExp :=
    ⟨true, [Term.plus notSpaceAt, Term.one atSign, Term.plus notSpaceAt, Term.one dot,
      Term.plus notSpaceAt], true⟩
  re.test email

/-- The function `validateEmail` of `static/js/main.js`. -/
def validateEmailMain (email : JSString) : Bool :=
  let re : RegExp :=
    ⟨true, [Term.plus notSpaceAt, Term.one atSign, Term.plus notSpaceAt, Term.one dot,
      Term.plus notSpaceAt], true⟩
  re.test email

/-! ## The document -/

/-- The call `classList.add(c)`. -/
def classAdd (c : String) (cs : List String) : List String :=
  if cs.contains c then cs else cs ++ [c]

/-- The call `classList.remove(c)`. -/
def classRemove (c : String) (cs : List String) : List String :=
  cs.filter (fun x => x != c)

/-- The call `classList.contains(c)`. -/
def classContains (c : String) (cs : List String) : Bool := cs.contains c

/-- An element whose id ends in `-errors`. -/
structure ErrorContainer where
  classList : List String
  textContent : String
deriving DecidableEq

/-- An element carrying a `name` attribute: a control of the contact form. -/
structure FormControl where
  classList : List String
  value : JSString
  defaultValue : JSString
deriving DecidableEq

/-- The element `button[type="submit"]` of the form. -/
structure SubmitButton where
  disabled : Bool
  innerHTML : String
deriving DecidableEq

/-- The four elements read by `showToast` of `static/js/contact.js`:
`#contact-toast-container`, `#contact-toast`, `#toast-message` and `#toast-icon`. -/
structure ContactToast where
  containerClassList : List String
  toastClassList : List String
  messageText : String
  iconText : String
deriving DecidableEq

/-- A `div` created and appended to `#toast-container` by `showToast` of
`static/js/main.js`; `message` is the text interpolated into its `innerHTML`. -/
structure ToastNode where
  nodeId : Nat
  className : List String
  message : String
  opacity : String
  transform : String
deriving DecidableEq

/-- The functions handed to `setTimeout`. -/
inductive Callback where
  | fadeContactToast
  | hideContactToast
  | fadeToastNode (nodeId : Nat)
  | removeToastNode (nodeId : Nat)
deriving DecidableEq

/-- A pending timer: the time at which it is due and what it runs. -/
structure Timer where
  due : Nat
  callback : Callback
deriving DecidableEq

/-- One call of `fetch`. -/
structure Request where
  url : String
  method : String
  contentType : String
  csrfToken : Option JSString
  name : Option JSString
  email : Option JSString
  message : Option JSString
  captcha : Option String
deriving DecidableEq

/-- What `document.querySelector` does with the selector `[name="F"]` built from a field
name `F`: it throws a `SyntaxError` when the text is not a valid selector, or it returns
the first element selected, given by the name of a form control (`none` for `null`). -/
inductive NameSelector where
  | syntaxError
  | found (control : Option String)
deriving DecidableEq

/-- The document, the timer queue, the clock (in ms) and the requests issued so far.
The field `exoticSelector` is the selector engine of the browser on the selectors
`[name="F"]` that `querySelectorName` leaves to it; a selector that parses is taken to
select a control of the form or nothing. -/
structure World where
  errorContainers : String → Option ErrorContainer
  fields : String → Option FormControl
  exoticSelector : String → NameSelector
  submitButton : Option SubmitButton
  contactToast : Option ContactToast
  toastContainer : Option (List ToastNode)
  nextNodeId : Nat
  timers : List Timer
  now : Nat
  requests : List Request

/-! ## Field errors (`js/contact.js` and `static/js/contact.js`, same text) -/

/-- A code point that stands for itself inside a double-quoted CSS string: not the
quote (34), the backslash (92), a line break (10, 12, 13) or NUL (0). -/
def plainChar (c : Char) : Bool :=
  !(c.toNat == 34 || c.toNat == 92 || c.toNat == 10 || c.toNat == 12 || c.toNat == 13 ||
    c.toNat == 0)

/-- A field name made of such code points only: the text `[name="F"]` is then the
attribute selector that tests the `name` attribute for the value `F`. -/
def plainName (fieldName : String) : Bool := fieldName.toList.all plainChar

/-- The call `document.querySelector` on the template `[name="${fieldName}"]`.  The text
of the name is read as a double-quoted CSS string up to its first code point that does
not stand for itself.  With no such code point the selector tests the `name` attribute
for the name itself.  At a line break the string is broken and the selector is invalid.
At a quote the string ends, and when only letters and digits follow in the name, what
comes before the end of the text (that token, then the string opened by the last quote)
is not what may follow the value of an attribute selector: the selector is invalid.  In
the other cases the browser decides. -/
def querySelectorName (w : World) (fieldName : String) : NameSelector :=
  match fieldName.toList.dropWhile plainChar with
  | [] => NameSelector.found (some fieldName)
  | c :: rest =>
    if c.toNat == 10 || c.toNat == 12 || c.toNat == 13 then NameSelector.syntaxError
    else if c.toNat == 34 && rest.all Char.isAlphanum then NameSelector.syntaxError
    else w.exoticSelector fieldName

/-- The function `showFieldError(fieldName, message)`.  Both elements are looked up before
anything is written, and the second lookup throws when the selector is invalid: the flag
of the result says that a `SyntaxError` left the function, the document being unchanged. -/
def showFieldError (fieldName message : String) (w : World) : World × Bool :=
  let errorContainer := w.errorContainers fieldName
  match querySelectorName w fieldName with
  | NameSelector.syntaxError => (w, true)
  | NameSelector.found control =>
    let field := control.bind w.fields
    let w :=
      match errorContainer with
      | some e =>
        let e : ErrorContainer :=
          { textContent := message, classList := classRemove "hidden" e.classList }
        { w with errorContainers := Function.update w.errorContainers fieldName (some e) }
      | none => w
    match control, field with
    | some name, some f =>
      let f : FormControl :=
        { f with classList := classRemove "border-input" (classAdd "border-red-500" f.classList) }
      ({ w with fields := Function.update w.fields name (some f) }, false)
    | _, _ => (w, false)

/-- The function `clearFormErrors()`. -/
def clearFormErrors (w : World) : World :=
  { w with
    errorContainers := fun k =>
      (w.errorContainers k).map fun e =>
        { classList := classAdd "hidden" e.classList, textContent := "" }
    fields := fun k =>
      if k = "name" ∨ k = "email" ∨ k = "message" then
        (w.fields k).map fun f =>
          { f with classList := classAdd "border-input" (classRemove "border-red-500" f.classList) }
      else w.fields k }

/-- The call `form.reset()`: every control goes back to its default value. -/
def formReset (w : World) : World :=
  { w with fields := fun k => (w.fields k).map fun f => { f with value := f.defaultValue } }

/-! ## Toasts -/

/-- The function `showToast(message, type)` of `static/js/main.js`: a node is created,
styled by the type, appended to `#toast-container`, and a fade-out timer is registered. -/
def showToastMain (message type : String) (w : World) : World :=
  match w.toastContainer with
  | none => w
  | some children =>
    let toast : ToastNode :=
      { nodeId := w.nextNodeId
        className :=
          ["p-4", "mb-2", "rounded-lg", "shadow-lg", "transform", "transition-all",
            "duration-300", "ease-in-out"]
          ++ (if type == "success" then ["bg-green-500", "text-white"] else [])
          ++ (if type == "error" then ["bg-red-500", "text-white"] else [])
          ++ (if type == "info" then ["bg-blue-500", "text-white"] else [])
          ++ (if type == "warning" then ["bg-yellow-500", "text-black"] else [])
        message := message
        opacity := ""
        transform := "" }
    { w with
      toastContainer := some (children ++ [toast])
      nextNodeId := w.nextNodeId + 1
      timers := w.timers ++ [⟨w.now + 5000, Callback.fadeToastNode toast.nodeId⟩] }

/-- The icon and the classes `bgClass`, `textClass`, `borderClass` chosen by `showToast`
of `static/js/contact.js` for a toast type. -/
def toastStyle (type : String) : String × String × String × String :=
  if type == "success" then ("✅", "bg-green-50", "text-green-800", "border-green-200")
  else if type == "error" then ("❌", "bg-red-50", "text-red-800", "border-red-200")
  else ("ℹ️", "bg-blue-50", "text-blue-800", "border-blue-200")

/-- The function `showToast(message, type)` of `static/js/contact.js`: nothing happens
when a toast element is missing; otherwise the slot is rendered and a fade-out timer is
registered. -/
def showToast (message type : String) (w : World) : World :=
  match w.contactToast with
  | none => w
  | some t =>
    let style := toastStyle type
    let t := { t with iconText := style.1, messageText := message }
    let t := { t with
      toastClassList :=
        ["p-4", "rounded-lg", "border", "shadow-sm", "transition-all", "duration-300",
          "ease-in-out", style.2.1, style.2.2.1, style.2.2.2] }
    let t := { t with containerClassList := classRemove "hidden" t.containerClassList }
    let t := { t with
      toastClassList :=
        classAdd "opacity-100" (classAdd "translate-y-0"
          (classRemove "opacity-0" (classRemove "translate-y-[-10px]" t.toastClassList))) }
    { w with
      contactToast := some t
      timers := w.timers ++ [⟨w.now + 5000, Callback.fadeContactToast⟩] }

/-- Running a timer callback. -/
def fire (cb : Callback) (w : World) : World :=
  match cb with
  | Callback.fadeContactToast =>
    match w.contactToast with
    | none => w
    | some t =>
      if !classContains "hidden" t.containerClassList then
        { w with
          contactToast := some { t with
            toastClassList :=
              classAdd "opacity-0" (classAdd "translate-y-[-10px]"
                (classRemove "opacity-100" (classRemove "translate-y-0" t.toastClassList))) }
          timers := w.timers ++ [⟨w.now + 300, Callback.hideContactToast⟩] }
      else w
  | Callback.hideContactToast =>
    match w.contactToast with
    | none => w
    | some t =>
      { w with
        contactToast := some { t with
          containerClassList := classAdd "hidden" t.containerClassList } }
  | Callback.fadeToastNode nodeId =>
    match w.toastContainer with
    | none => w
    | some children =>
      if children.any (fun n => n.nodeId == nodeId) then
        { w with
          toastContainer := some (children.map fun n =>
            if n.nodeId == nodeId then { n with opacity := "0", transform := "translateX(100%)" }
            else n)
          timers := w.timers ++ [⟨w.now + 300, Callback.removeToastNode nodeId⟩] }
      else w
  | Callback.removeToastNode nodeId =>
    match w.toastContainer with
    | none => w
    | some children =>
      { w with toastContainer := some (children.filter fun n => n.nodeId != nodeId) }

/-! ## The event loop -/

/-- The timer that runs next: the least due time, the earliest registered among equals. -/
def earliest : List Timer → Option Timer
  | [] => none
  | x :: xs =>
    match earliest xs with
    | none => some x
    | some y => if y.due < x.due then some y else some x

/-- Run the next timer if it is due by time `t`. -/
def step (t : Nat) (w : World) : Option World :=
  match earliest w.timers with
  | none => none
  | some tm =>
    if tm.due ≤ t then
      some (fire tm.callback { w with timers := w.timers.erase tm, now := max w.now tm.due })
    else none

/-- An upper bound on the number of callbacks still to run: a fading callback can
register one more timer. -/
def fuel : List Timer → Nat
  | [] => 0
  | ⟨_, Callback.fadeContactToast⟩ :: ts => 2 + fuel ts
  | ⟨_, Callback.fadeToastNode _⟩ :: ts => 2 + fuel ts
  | _ :: ts => 1 + fuel ts

/-- Run due timers, at most `n` of them. -/
def runDue (t : Nat) : Nat → World → World
  | 0, w => w
  | n + 1, w =>
    match step t w with
    | none => w
    | some w1 => runDue t n w1

/-- Let time pass until `t`: every timer due by then runs, in order. -/
def advanceTo (t : Nat) (w : World) : World :=
  let w1 := runDue t (fuel w.timers) w
  { w1 with now := max w1.now t }

/-! ## The submit handler -/

/-- The object `data` built from `new FormData(form)`; `none` is `null`. -/
structure FormValues where
  name : Option JSString
  email : Option JSString
  message : Option JSString
  csrfmiddlewaretoken : Option JSString

/-- The four calls `formData.get(...)`. -/
def readForm (w : World) : FormValues :=
  { name := (w.fields "name").map (fun f => f.value)
    email := (w.fields "email").map (fun f => f.value)
    message := (w.fields "message").map (fun f => f.value)
    csrfmiddlewaretoken := (w.fields "csrfmiddlewaretoken").map (fun f => f.value) }

/-- The length `value.length` of a form entry.  It is only read after `validateRequired`
accepted the entry, which `null` never is. -/
def valueLength (value : Option JSString) : Nat :=
  match value with
  | some s => s.length
  | none => 0

/-- The call `validateEmail(data.email)` on a form entry accepted by `validateRequired`. -/
def validateEmailValue (value : Option JSString) : Bool :=
  match value with
  | some s => validateEmail s
  | none => false

/-- The three validation blocks of `handleContactSubmit`, threading the document and the
flag `hasErrors`.  The text is the same in both copies of the handler, each calling the
`validateEmail` of its own file, which has the same pattern.  The three field names are
literals that form valid selectors, so `showFieldError` does not throw here. -/
def validateForm (data : FormValues) (w : World) : World × Bool :=
  let st : World × Bool := (w, false)
  let st :=
    if !validateRequired data.name then
      ((showFieldError "name" "Name is required" st.1).1, true)
    else if valueLength data.name < 2 then
      ((showFieldError "name" "Name must be at least 2 characters long" st.1).1, true)
    else st
  let st :=
    if !validateRequired data.email then
      ((showFieldError "email" "Email is required" st.1).1, true)
    else if !validateEmailValue data.email then
      ((showFieldError "email" "Please enter a valid email address" st.1).1, true)
    else st
  let st :=
    if !validateRequired data.message then
      ((showFieldError "message" "Message is required" st.1).1, true)
    else if valueLength data.message < 10 then
      ((showFieldError "message" "Message must be at least 10 characters long" st.1).1, true)
    else st
  st

/-- The markup assigned to `submitButton.innerHTML` while the request is pending. -/
def loadingMarkup : String :=
  "\n    <svg class=\"animate-spin mr-2 h-4 w-4\" fill=\"none\" stroke=\"currentColor\" viewBox=\"0 0 24 24\">\n      <circle cx=\"12\" cy=\"12\" r=\"10\" stroke-dasharray=\"32\" stroke-dashoffset=\"32\">\n        <animate attributeName=\"stroke-dasharray\" dur=\"2s\" values=\"0 64;32 32;0 64\" repeatCount=\"indefinite\" />\n        <animate attributeName=\"stroke-dashoffset\" dur=\"2s\" values=\"0;-32;-64\" repeatCount=\"indefinite\" />\n      </circle>\n    </svg>\n    Sending...\n  "

/-- The assignments `submitButton.disabled = d; submitButton.innerHTML = html`. -/
def setButton (d : Bool) (html : String) (w : World) : World :=
  { w with submitButton := some { disabled := d, innerHTML := html } }

/-- The parsed response object, as far as the handler reads it: the truthiness of
`success`, the string `message` (`none` when absent or `null`) and the object `errors`
(`none` when absent or `null`), given by its entries in key order, each a list of
messages (`none` for `null`).  A parsed object has no two entries with the same key. -/
structure ContactResult where
  success : Bool
  message : Option String
  errors : Option (List (String × Option (List String)))

/-- How `response.json()` settles: it throws on a malformed body, yields `null`, or yields
an object. -/
inductive JsonBody where
  | malformed
  | null
  | object (result : ContactResult)

/-- How `fetch` settles. -/
inductive FetchOutcome where
  | rejected
  | resolved (body : JsonBody)

/-- The reCAPTCHA provider: `grecaptcha` undefined, `execute` resolved with a token, or
`execute` rejected. -/
inductive Captcha where
  | unavailable
  | token (t : String)
  | rejected
deriving DecidableEq

/-- The value of `data.captcha` once the reCAPTCHA step is over: the token, or
`undefined` (`none`), which `JSON.stringify` leaves out of the body. -/
def Captcha.dataCaptcha : Captcha → Option String
  | Captcha.token t => some t
  | _ => none

/-- How an `async` function ends. -/
inductive Completion where
  | normal
  | threw
deriving DecidableEq

/-- The expression `message || fallback` for a string or absent message. -/
def orDefault (message : Option String) (fallback : String) : String :=
  match message with
  | some m => if m = "" then fallback else m
  | none => fallback

/-- The callback of `Object.keys(result.errors).forEach` for one key; the flag says that
`showFieldError` threw. -/
def showServerError (errors : List (String × Option (List String))) (w : World)
    (field : String) : World × Bool :=
  match errors.lookup field with
  | some (some (first :: _)) => showFieldError field first w
  | _ => (w, false)

/-- The loop `Object.keys(result.errors).forEach(...)`: the keys are visited in order, and
an exception thrown by the callback ends the loop and leaves it. -/
def forEachField (errors : List (String × Option (List String))) :
    List String → World → World × Bool
  | [], w => (w, false)
  | field :: rest, w =>
    let r := showServerError errors w field
    if r.2 then r else forEachField errors rest r.1

/-- The branch on `result` after `await response.json()`, with the `showToast` in scope;
the flag says that an exception left the branch. -/
def handleResult (toast : String → String → World → World) (result : ContactResult)
    (w : World) : World × Bool :=
  if result.success then
    let w :=
      toast (orDefault result.message "Message sent successfully! We\x27ll get back to you soon.")
        "success" w
    let w := formReset w
    (clearFormErrors w, false)
  else
    match result.errors with
    | some errors => forEachField errors (errors.map Prod.fst) w
    | none =>
      (toast (orDefault result.message "An error occurred. Please try again.") "error" w, false)

/-- The statements from `await fetch(...)` to the end of the `try` block: the request is
recorded, then the settled outcome is handled.  The flag says whether an exception left
the block (`fetch` rejected, `response.json()` threw, a property of `null` was read, or
`showFieldError` threw). -/
def sendAndHandle (toast : String → String → World → World) (request : Request)
    (fetched : FetchOutcome) (w : World) : World × Bool :=
  let w := { w with requests := w.requests ++ [request] }
  match fetched with
  | FetchOutcome.rejected => (w, true)
  | FetchOutcome.resolved JsonBody.malformed => (w, true)
  | FetchOutcome.resolved JsonBody.null => (w, true)
  | FetchOutcome.resolved (JsonBody.object result) => handleResult toast result w

/-- The handler `handleContactSubmit` of `js/contact.js`; `showToast` is the global of
`static/js/main.js`. -/
def handleContactSubmit (fetched : FetchOutcome) (w : World) : Completion × World :=
  match w.submitButton with
  | none => (Completion.threw, w)
  | some submitButton =>
    let originalButtonText := submitButton.innerHTML
    let w := clearFormErrors w
    let data := readForm w
    let st := validateForm data w
    if st.2 then (Completion.normal, st.1)
    else
      let w := setButton true loadingMarkup st.1
      let request : Request :=
        { url := "/ajax/contact/", method := "POST", contentType := "application/json"
          csrfToken := data.csrfmiddlewaretoken
          name := data.name, email := data.email, message := data.message
          captcha := none }
      let tried := sendAndHandle showToastMain request fetched w
      let w :=
        if tried.2 then
          showToastMain "Network error. Please check your connection and try again." "error"
            tried.1
        else tried.1
      (Completion.normal, setButton false originalButtonText w)

/-- The handler `handleContactSubmit` of `static/js/contact.js`, with the `showToast` of
that file. -/
def handleContactSubmitDebug (captcha : Captcha) (fetched : FetchOutcome) (w : World) :
    Completion × World :=
  match w.submitButton with
  | none => (Completion.threw, w)
  | some submitButton =>
    let originalButtonText := submitButton.innerHTML
    let w := clearFormErrors w
    let data := readForm w
    let st := validateForm data w
    if st.2 then (Completion.normal, st.1)
    else
      let w := setButton true loadingMarkup st.1
      match captcha with
      | Captcha.rejected =>
        let w := showToast "Security verification failed. Please try again." "error" w
        let w := setButton false originalButtonText w
        (Completion.normal, setButton false originalButtonText w)
      | _ =>
        let request : Request :=
          { url := "/ajax/contact/", method := "POST", contentType := "application/json"
            csrfToken := data.csrfmiddlewaretoken
            name := data.name, email := data.email, message := data.message
            captcha := captcha.dataCaptcha }
        let tried := sendAndHandle showToast request fetched w
        let w :=
          if tried.2 then
            showToast "Network error. Please check your connection and try again." "error"
              tried.1
          else tried.1
        (Completion.normal, setButton false originalButtonText w)

/-- The function `showToast` of `static/js/contact.js` called at time `t`. -/
def showToastAt (t : Nat) (message type : String) (w : World) : World :=
  showToast message type (advanceTo t w)

/-! ## Vocabulary of the specification -/

/-- A string is blank when every code unit is white space (the empty string included). -/
def Blank (s : JSString) : Prop := ∀ c ∈ s, isWhiteSpace c = true

instance (s : JSString) : Decidable (Blank s) := by
  unfold Blank; infer_instance

/-! ## A document satisfying the DOM contract, for concrete runs -/

/-- A page with the contact form filled in with the given values, the three error
containers hidden, both toast regions present and empty, no timer pending.  The selectors
left to the browser are taken to select nothing on it; no statement below runs the page
on such a field name. -/
def examplePage (name email message : JSString) : World :=
  { errorContainers := fun k =>
      if k = "name" ∨ k = "email" ∨ k = "message" then some ⟨["hidden"], ""⟩ else none
    fields := fun k =>
      if k = "name" then some ⟨["border-input"], name, []⟩
      else if k = "email" then some ⟨["border-input"], email, []⟩
      else if k = "message" then some ⟨["border-input"], message, []⟩
      else if k = "csrfmiddlewaretoken" then some ⟨[], [116, 111, 107], [116, 111, 107]⟩
      else none
    exoticSelector := fun _ => NameSelector.found none
    submitButton := some ⟨false, "Send Message"⟩
    contactToast := some ⟨["hidden"], ["translate-y-[-10px]", "opacity-0"], "", ""⟩
    toastContainer := some []
    nextNodeId := 0
    timers := []
    now := 0
    requests := [] }

/-- An entry is missing or blank: `null`, or a string of white space only. -/
def MissingOrBlank (value : Option JSString) : Prop :=
  match value with
  | none => True
  | some s => Blank s

instance (value : Option JSString) : Decidable (MissingOrBlank value) := by
  unfold MissingOrBlank; cases value <;> infer_instance

/-- The name is flagged: missing or blank, or shorter than 2. -/
def NameFlagged (value : Option JSString) : Prop :=
  MissingOrBlank value ∨ valueLength value < 2

/-- The email is flagged: missing or blank, or rejected by `validateEmail`. -/
def EmailFlagged (value : Option JSString) : Prop :=
  MissingOrBlank value ∨ validateEmailValue value = false

/-- The message is flagged: missing or blank, or shorter than 10. -/
def MessageFlagged (value : Option JSString) : Prop :=
  MissingOrBlank value ∨ valueLength value < 10

instance (value : Option JSString) : Decidable (NameFlagged value) := by
  unfold NameFlagged; infer_instance

instance (value : Option JSString) : Decidable (EmailFlagged value) := by
  unfold EmailFlagged; infer_instance

instance (value : Option JSString) : Decidable (MessageFlagged value) := by
  unfold MessageFlagged; infer_instance

/-- Some field of the submission is flagged. -/
def AnyFlagged (data : FormValues) : Prop :=
  NameFlagged data.name ∨ EmailFlagged data.email ∨ MessageFlagged data.message

instance (data : FormValues) : Decidable (AnyFlagged data) := by
  unfold AnyFlagged; infer_instance

/-- The field whose error container has key `k` is flagged. -/
def FlaggedField (data : FormValues) (k : String) : Prop :=
  (k = "name" ∧ NameFlagged data.name) ∨ (k = "email" ∧ EmailFlagged data.email) ∨
    (k = "message" ∧ MessageFlagged data.message)

instance (data : FormValues) (k : String) : Decidable (FlaggedField data k) := by
  unfold FlaggedField; infer_instance

/-- The text the specification puts in the error container with key `k`: the
`... is required` message for a missing or blank field, the length or format message for
another flagged field, nothing otherwise. -/
def expectedText (data : FormValues) (k : String) : String :=
  if k = "name" then
    if MissingOrBlank data.name then "Name is required"
    else if valueLength data.name < 2 then "Name must be at least 2 characters long"
    else ""
  else if k = "email" then
    if MissingOrBlank data.email then "Email is required"
    else if validateEmailValue data.email = false then "Please enter a valid email address"
    else ""
  else if k = "message" then
    if MissingOrBlank data.message then "Message is required"
    else if valueLength data.message < 10 then "Message must be at least 10 characters long"
    else ""
  else ""

/-- An error container is visible: its class list does not hold `hidden`. -/
def Visible (e : ErrorContainer) : Prop := classContains "hidden" e.classList = false

instance (e : ErrorContainer) : Decidable (Visible e) := by
  unfold Visible; infer_instance

/-- The shape `local@domain.tld`: `s = L + '@' + D`, `L` non-empty, no white space and no
`@` in `L` or `D`, and `D` holds a `.` with something before it and something after it. -/
def EmailShape (s : JSString) : Prop :=
  ∃ L D : JSString, s = L ++ [64] ++ D ∧ L ≠ [] ∧
    (∀ c ∈ L, isWhiteSpace c = false ∧ c ≠ 64) ∧
    (∀ c ∈ D, isWhiteSpace c = false ∧ c ≠ 64) ∧
    ∃ A B : JSString, D = A ++ [46] ++ B ∧ A ≠ [] ∧ B ≠ []

/-! ## Field errors for a name that is a valid selector -/

/-- The writes of `showFieldError` when the selector tests the name `fieldName` itself:
the error container with that key and the control with that name. -/
def writeFieldError (fieldName message : String) (w : World) : World :=
  let errorContainer := w.errorContainers fieldName
  let field := w.fields fieldName
  let w :=
    match errorContainer with
    | some e =>
      let e : ErrorContainer :=
        { textContent := message, classList := classRemove "hidden" e.classList }
      { w with errorContainers := Function.update w.errorContainers fieldName (some e) }
    | none => w
  match field with
  | some f =>
    let f : FormControl :=
      { f with classList := classRemove "border-input" (classAdd "border-red-500" f.classList) }
    { w with fields := Function.update w.fields fieldName (some f) }
  | none => w

/-! ## The validation blocks, one field at a time -/

/-- The message the name block passes to `showFieldError`, if it calls it. -/
def nameMessage (value : Option JSString) : Option String :=
  if !validateRequired value then some "Name is required"
  else if valueLength value < 2 then some "Name must be at least 2 characters long"
  else none

/-- The message the email block passes to `showFieldError`, if it calls it. -/
def emailMessage (value : Option JSString) : Option String :=
  if !validateRequired value then some "Email is required"
  else if !validateEmailValue value then some "Please enter a valid email address"
  else none

/-- The message the message block passes to `showFieldError`, if it calls it. -/
def messageMessage (value : Option JSString) : Option String :=
  if !validateRequired value then some "Message is required"
  else if valueLength value < 10 then some "Message must be at least 10 characters long"
  else none

/-- One validation block: `showFieldError` when the block produced a message. -/
def applyError (fieldName : String) (message : Option String) (w : World) : World :=
  match message with
  | some m => writeFieldError fieldName m w
  | none => w

/-- The page with a name of two spaces, a well-shaped email and an eleven-character
message. -/
def pageBlankName : World := examplePage (js "  ") (js "a@b.co") (js "hello world")

/-- The page with a one-space name, the email `a@b` and an eleven-character message. -/
def pageBadEmail : World := examplePage (js " ") (js "a@b") (js "hello world")

/-- The page with a valid submission. -/
def pageValid : World := examplePage (js "Bob") (js "a@b.co") (js "hello world")

/-- The first message of the list the mapping `errors` gives for `field`, when the entry
is a non-empty list. -/
def firstMessage (errors : List (String × Option (List String))) (field : String) :
    Option String :=
  match errors.lookup field with
  | some (some (first :: _)) => some first
  | _ => none

/-! ## User-visible signals -/

/-- Some error container is visible with non-empty text. -/
def ErrorShown (w1 : World) : Prop :=
  ∃ k e1, w1.errorContainers k = some e1 ∧ Visible e1 ∧ e1.textContent ≠ ""

/-- A toast node with a non-empty message was appended to the toast list
(`static/js/main.js`). -/
def ToastAppended (w w1 : World) : Prop :=
  ∃ children node, w.toastContainer = some children ∧
    w1.toastContainer = some (children ++ [node]) ∧ node.message ≠ ""

/-- The toast slot of `static/js/contact.js` was rendered once: it is visible, it has a
non-empty message, and one timer was registered. -/
def ToastRendered (w w1 : World) : Prop :=
  ∃ t1, w1.contactToast = some t1 ∧ classContains "hidden" t1.containerClassList = false ∧
    t1.messageText ≠ "" ∧ w1.timers = w.timers ++ [⟨w.now + 5000, Callback.fadeContactToast⟩]

/-- A response object with a falsy `success` that carries something to show: no `errors`
mapping at all, or a mapping giving some field that has an error container on the page a
list whose first message is not empty. -/
def ShowableFailure (w : World) (r : ContactResult) : Prop :=
  r.success = false ∧
    (r.errors = none ∨
      ∃ errors k m rest e, r.errors = some errors ∧
        errors.lookup k = some (some (m :: rest)) ∧ m ≠ "" ∧ w.errorContainers k = some e)

/-- A submission attempt that does not end in success: validation fails, the request is
rejected, the body is malformed or `null`, or the response is a showable failure. -/
def FailedAttempt (w : World) (fetched : FetchOutcome) : Prop :=
  AnyFlagged (readForm w) ∨ fetched = FetchOutcome.rejected ∨
    fetched = FetchOutcome.resolved JsonBody.malformed ∨
    fetched = FetchOutcome.resolved JsonBody.null ∨
    ∃ r, fetched = FetchOutcome.resolved (JsonBody.object r) ∧ ShowableFailure w r

/-! ## The toast slot -/

/-- The class list of `#contact-toast` right after `showToast`: the base classes, the
three colour classes of the type, and the two classes of the shown state. -/
def shownClassList (type : String) : List String :=
  ["p-4", "rounded-lg", "border", "shadow-sm", "transition-all", "duration-300",
    "ease-in-out", (toastStyle type).2.1, (toastStyle type).2.2.1, (toastStyle type).2.2.2,
    "translate-y-0", "opacity-100"]

/-- The class list of `#contact-toast` once the fade-out has started. -/
def fadedClassList (type : String) : List String :=
  ["p-4", "rounded-lg", "border", "shadow-sm", "transition-all", "duration-300",
    "ease-in-out", (toastStyle type).2.1, (toastStyle type).2.2.1, (toastStyle type).2.2.2,
    "translate-y-[-10px]", "opacity-0"]

/-- The toast slot is hidden: `#contact-toast-container` carries the class `hidden`. -/
def ToastHidden (t : ContactToast) : Prop := classContains "hidden" t.containerClassList = true

instance (t : ContactToast) : Decidable (ToastHidden t) := by
  unfold ToastHidden; infer_instance

/-- The document `w` with the toast slot, the timer queue and the clock replaced. -/
def withToast (w : World) (toast : ContactToast) (timers : List Timer) (now : Nat) : World :=
  { w with contactToast := some toast, timers := timers, now := now }

/-- The example page after `showToast('one', 'error')` at time 0 and
`showToast('two', 'success')` at time 100. -/
def pageTwoToastsClose : World :=
  showToastAt 100 "two" "success" (showToastAt 0 "one" "error" (examplePage [] [] []))

/-- The example page after `showToast('one', 'error')` at time 0 and
`showToast('two', 'success')` at time 1000. -/
def pageTwoToasts : World :=
  showToastAt 1000 "two" "success" (showToastAt 0 "one" "error" (examplePage [] [] []))

/-- The response `{"success": false, "errors": {"a\"b": ["x"], "email": ["Already used"]}}`:
a field-error mapping whose first field name holds a double quote. -/
def responseQuotedName : ContactResult :=
  ⟨false, none, some [("a\"b", some ["x"]), ("email", some ["Already used"])]⟩

/-! ## Facts about the helpers -/

theorem dropWhile_all_of_self (p : Nat → Bool) (s : List Nat)
    (h : ∀ c ∈ s.dropWhile p, p c = true) : s.dropWhile p = [] := by
  cases hd : s.dropWhile p with
  | nil => rfl
  | cons x xs =>
    have h1 : p x = true := h x (by simp [hd])
    have h2 := List.head_dropWhile_not p s (by simp [hd])
    simp [hd] at h2
    simp [h1] at h2

theorem trim_eq_nil_iff (s : JSString) : trim s = [] ↔ Blank s := by
  unfold trim trimEnd trimStart Blank
  rw [List.reverse_eq_nil_iff, List.dropWhile_eq_nil_iff]
  constructor
  · intro h
    have h2 : s.dropWhile isWhiteSpace = [] :=
      dropWhile_all_of_self _ _ (fun c hc => h c (by simpa using hc))
    exact List.dropWhile_eq_nil_iff.mp h2
  · intro h c hc
    have h2 : s.dropWhile isWhiteSpace = [] := List.dropWhile_eq_nil_iff.mpr h
    simp [h2] at hc

theorem validateRequired_some (s : JSString) :
    validateRequired (some s) = false ↔ Blank s := by
  unfold validateRequired
  rw [← trim_eq_nil_iff]
  cases s with
  | nil => simp [trim, trimEnd, trimStart]
  | cons x xs =>
    cases h : trim (x :: xs) <;> simp [h]

theorem matchHere_nil (s : List Nat) : matchHere true [] s = true ↔ s = [] := by
  cases s <;> simp [matchHere]

theorem matchHere_one (p : Nat → Bool) (ts : List Term) (s : List Nat) :
    matchHere true (Term.one p :: ts) s = true ↔
      ∃ c b, s = c :: b ∧ p c = true ∧ matchHere true ts b = true := by
  cases s with
  | nil => simp [matchHere]
  | cons c s =>
    simp only [matchHere, Bool.and_eq_true]
    constructor
    · rintro ⟨h1, h2⟩
      exact ⟨c, s, rfl, h1, h2⟩
    · rintro ⟨c1, b, hcb, h1, h2⟩
      simp only [List.cons.injEq] at hcb
      obtain ⟨rfl, rfl⟩ := hcb
      exact ⟨h1, h2⟩

theorem matchHere_plus (p : Nat → Bool) (ts : List Term) (s : List Nat) :
    matchHere true (Term.plus p :: ts) s = true ↔
      ∃ a b, s = a ++ b ∧ a ≠ [] ∧ (∀ c ∈ a, p c = true) ∧ matchHere true ts b = true := by
  induction s with
  | nil =>
    simp [matchHere]
  | cons c s ih =>
    simp only [matchHere, Bool.and_eq_true, Bool.or_eq_true, ih]
    constructor
    · rintro ⟨hc, h | h⟩
      · obtain ⟨a, b, rfl, _, ha, hb⟩ := h
        exact ⟨c :: a, b, rfl, by simp, by simpa [hc] using ha, hb⟩
      · exact ⟨[c], s, rfl, by simp, by simpa using hc, h⟩
    · rintro ⟨a, b, hab, hne, ha, hb⟩
      cases a with
      | nil => exact absurd rfl hne
      | cons x a =>
        simp only [List.cons_append, List.cons.injEq] at hab
        obtain ⟨rfl, rfl⟩ := hab
        refine ⟨ha c (by simp), ?_⟩
        cases a with
        | nil => right; simpa using hb
        | cons y a =>
          left
          exact ⟨y :: a, b, rfl, by simp, fun z hz => ha z (by simp at hz ⊢; tauto), hb⟩

/-! ## The email validator -/

theorem notSpaceAt_iff (c : Nat) : notSpaceAt c = true ↔ isWhiteSpace c = false ∧ c ≠ 64 := by
  simp [notSpaceAt]

theorem validateEmail_iff_shape (s : JSString) : validateEmail s = true ↔ EmailShape s := by
  unfold validateEmail EmailShape RegExp.test
  simp only [if_true, matchHere_plus, matchHere_one, matchHere_nil, atSign, dot, beq_iff_eq,
    notSpaceAt_iff]
  constructor
  · rintro ⟨L, r1, rfl, hL, hLc, c1, r2, rfl, rfl, A, r3, rfl, hA, hAc, c2, r4, rfl, rfl,
      B, e, rfl, hB, hBc, rfl⟩
    refine ⟨L, A ++ [46] ++ B, by simp, hL, hLc, ?_, A, B, rfl, hA, hB⟩
    intro c hc
    simp only [List.mem_append, List.mem_singleton] at hc
    rcases hc with (hc | rfl) | hc
    · exact hAc c hc
    · exact ⟨by decide, by decide⟩
    · exact hBc c hc
  · rintro ⟨L, D, rfl, hL, hLc, hDc, A, B, rfl, hA, hB⟩
    refine ⟨L, 64 :: (A ++ [46] ++ B), by simp, hL, hLc, 64, A ++ [46] ++ B, rfl, rfl,
      A, 46 :: B, by simp, hA, ?_, 46, B, rfl, rfl, B, [], by simp, hB, ?_, rfl⟩
    · intro c hc
      exact hDc c (by simp [hc])
    · intro c hc
      exact hDc c (by simp [hc])

/-- C4: `validateEmail(s)` is true exactly when `s` has the shape `local@domain.tld`
(`s = L + '@' + D`, `L` non-empty, no white space or `@` in `L` or `D`, and `D` holding a
`.` with at least one character on each side); it accepts `a@b.co` and rejects `a@b`,
`a b@c.com`, `@b.com` and the empty string; and the three copies of `validateEmail`
decide the same strings. -/
theorem C4_validateEmail_shape :
    (∀ s : JSString, validateEmail s = true ↔ EmailShape s) ∧
    validateEmail (js "a@b.co") = true ∧
    validateEmail (js "a@b") = false ∧
    validateEmail (js "a b@c.com") = false ∧
    validateEmail (js "@b.com") = false ∧
    validateEmail (js "") = false ∧
    (∀ s : JSString, validateEmailStaticContact s = validateEmail s ∧
      validateEmailMain s = validateEmail s) := by
  refine ⟨validateEmail_iff_shape, by decide, by decide, by decide, by decide, by decide, ?_⟩
  intro s
  exact ⟨rfl, rfl⟩
/-! ## Class lists -/

theorem classContains_classRemove_self (c : String) (cs : List String) :
    classContains c (classRemove c cs) = false := by
  simp [classContains, classRemove]

theorem classContains_classAdd_self (c : String) (cs : List String) :
    classContains c (classAdd c cs) = true := by
  unfold classContains classAdd
  by_cases h : c ∈ cs
  · simp [h]
  · simp [h]

/-! ## What each document operation leaves alone -/

theorem writeFieldError_errorContainers (f m k : String) (w : World) :
    (writeFieldError f m w).errorContainers k =
      if k = f then
        (w.errorContainers f).map fun e =>
          { textContent := m, classList := classRemove "hidden" e.classList }
      else w.errorContainers k := by
  unfold writeFieldError
  cases h1 : w.errorContainers f <;> cases h2 : w.fields f <;>
    by_cases hk : k = f <;> simp [Function.update, hk, h1]

theorem writeFieldError_fields (f m k : String) (w : World) :
    (writeFieldError f m w).fields k =
      if k = f then
        (w.fields f).map fun c =>
          { c with
            classList := classRemove "border-input" (classAdd "border-red-500" c.classList) }
      else w.fields k := by
  unfold writeFieldError
  cases h1 : w.errorContainers f <;> cases h2 : w.fields f <;>
    by_cases hk : k = f <;> simp [Function.update, hk, h2]

theorem writeFieldError_rest (f m : String) (w : World) :
    (writeFieldError f m w).submitButton = w.submitButton ∧
    (writeFieldError f m w).contactToast = w.contactToast ∧
    (writeFieldError f m w).toastContainer = w.toastContainer ∧
    (writeFieldError f m w).nextNodeId = w.nextNodeId ∧
    (writeFieldError f m w).timers = w.timers ∧
    (writeFieldError f m w).now = w.now ∧
    (writeFieldError f m w).requests = w.requests := by
  unfold writeFieldError
  cases h1 : w.errorContainers f <;> cases h2 : w.fields f <;> simp

theorem writeFieldError_value (f m k : String) (w : World) :
    ((writeFieldError f m w).fields k).map (fun c => c.value) =
      (w.fields k).map (fun c => c.value) := by
  rw [writeFieldError_fields]
  by_cases hk : k = f
  · subst hk
    cases w.fields k <;> simp
  · simp [hk]

theorem readForm_clearFormErrors (w : World) : readForm (clearFormErrors w) = readForm w := by
  unfold readForm clearFormErrors
  cases h1 : w.fields "name" <;> cases h2 : w.fields "email" <;>
    cases h3 : w.fields "message" <;> simp [h1, h2, h3]

/-! ## The selector lookup of `showFieldError` -/

theorem querySelectorName_plain (w : World) (f : String) (h : plainName f = true) :
    querySelectorName w f = NameSelector.found (some f) := by
  have hd : f.toList.dropWhile plainChar = [] := by
    rw [List.dropWhile_eq_nil_iff]
    intro c hc
    exact List.all_eq_true.mp h c hc
  unfold querySelectorName
  rw [hd]

/-- For a name that is a valid selector `showFieldError` does not throw and writes the
error container and the control of that name. -/
theorem showFieldError_plain (f m : String) (w : World) (h : plainName f = true) :
    showFieldError f m w = (writeFieldError f m w, false) := by
  unfold showFieldError writeFieldError
  rw [querySelectorName_plain w f h]
  cases h1 : w.errorContainers f <;> cases h2 : w.fields f <;> simp [h2]

/-- A thrown `SyntaxError` leaves the document as it was. -/
theorem showFieldError_thrown (f m : String) (w : World)
    (h : (showFieldError f m w).2 = true) : (showFieldError f m w).1 = w := by
  unfold showFieldError at h ⊢
  cases hq : querySelectorName w f with
  | syntaxError => simp
  | found control =>
    rw [hq] at h
    cases control with
    | none => simp at h
    | some name =>
      cases hf : w.fields name <;> simp [hf] at h

/-- Whatever the selector selects, `showFieldError` writes to the error container of its
field only, and as `writeFieldError` does. -/
theorem showFieldError_errorContainers (f m : String) (w : World)
    (h : (showFieldError f m w).2 = false) :
    (showFieldError f m w).1.errorContainers = (writeFieldError f m w).errorContainers := by
  unfold showFieldError at h ⊢
  unfold writeFieldError
  cases hq : querySelectorName w f with
  | syntaxError => rw [hq] at h; simp at h
  | found control =>
    cases control with
    | none => cases h1 : w.errorContainers f <;> cases h2 : w.fields f <;> simp
    | some name =>
      cases h1 : w.errorContainers f <;> cases h2 : w.fields f <;>
        cases h3 : w.fields name <;> simp [h3]

theorem showFieldError_rest (f m : String) (w : World) :
    (showFieldError f m w).1.submitButton = w.submitButton ∧
    (showFieldError f m w).1.contactToast = w.contactToast ∧
    (showFieldError f m w).1.toastContainer = w.toastContainer ∧
    (showFieldError f m w).1.nextNodeId = w.nextNodeId ∧
    (showFieldError f m w).1.timers = w.timers ∧
    (showFieldError f m w).1.now = w.now ∧
    (showFieldError f m w).1.requests = w.requests := by
  unfold showFieldError
  cases hq : querySelectorName w f with
  | syntaxError => simp
  | found control =>
    cases control with
    | none => cases h1 : w.errorContainers f <;> simp
    | some name =>
      cases h1 : w.errorContainers f <;> cases h3 : w.fields name <;> simp [h3]

theorem plainName_name : plainName "name" = true := by decide

theorem plainName_email : plainName "email" = true := by decide

theorem plainName_message : plainName "message" = true := by decide

/-! ## Client-side validation -/

theorem validateRequired_eq_false_iff (value : Option JSString) :
    validateRequired value = false ↔ MissingOrBlank value := by
  cases value with
  | none => simp [validateRequired, MissingOrBlank]
  | some s => simpa [MissingOrBlank] using validateRequired_some s

/-- The three validation blocks are three independent steps. -/
theorem validateForm_eq (data : FormValues) (w : World) :
    validateForm data w =
      (applyError "message" (messageMessage data.message)
        (applyError "email" (emailMessage data.email)
          (applyError "name" (nameMessage data.name) w)),
        (nameMessage data.name).isSome || (emailMessage data.email).isSome ||
          (messageMessage data.message).isSome) := by
  unfold validateForm nameMessage emailMessage messageMessage
  cases h1 : validateRequired data.name <;> cases h2 : validateRequired data.email <;>
    cases h3 : validateRequired data.message <;>
    by_cases h4 : valueLength data.name < 2 <;>
    cases h5 : validateEmailValue data.email <;>
    by_cases h6 : valueLength data.message < 10 <;>
    simp [h4, h6, applyError, showFieldError_plain, plainName_name, plainName_email,
      plainName_message]

theorem nameMessage_eq (value : Option JSString) :
    nameMessage value =
      if MissingOrBlank value then some "Name is required"
      else if valueLength value < 2 then some "Name must be at least 2 characters long"
      else none := by
  unfold nameMessage
  by_cases h : MissingOrBlank value
  · simp [h, (validateRequired_eq_false_iff value).mpr h]
  · have h1 : validateRequired value = true := by
      cases hv : validateRequired value
      · exact absurd ((validateRequired_eq_false_iff value).mp hv) h
      · rfl
    simp [h, h1]

theorem emailMessage_eq (value : Option JSString) :
    emailMessage value =
      if MissingOrBlank value then some "Email is required"
      else if validateEmailValue value = false then some "Please enter a valid email address"
      else none := by
  unfold emailMessage
  by_cases h : MissingOrBlank value
  · simp [h, (validateRequired_eq_false_iff value).mpr h]
  · have h1 : validateRequired value = true := by
      cases hv : validateRequired value
      · exact absurd ((validateRequired_eq_false_iff value).mp hv) h
      · rfl
    simp [h, h1]

theorem messageMessage_eq (value : Option JSString) :
    messageMessage value =
      if MissingOrBlank value then some "Message is required"
      else if valueLength value < 10 then some "Message must be at least 10 characters long"
      else none := by
  unfold messageMessage
  by_cases h : MissingOrBlank value
  · simp [h, (validateRequired_eq_false_iff value).mpr h]
  · have h1 : validateRequired value = true := by
      cases hv : validateRequired value
      · exact absurd ((validateRequired_eq_false_iff value).mp hv) h
      · rfl
    simp [h, h1]

theorem nameMessage_isSome (value : Option JSString) :
    (nameMessage value).isSome = true ↔ NameFlagged value := by
  rw [nameMessage_eq]; unfold NameFlagged
  by_cases h : MissingOrBlank value <;> by_cases h2 : valueLength value < 2 <;> simp [h, h2]

theorem emailMessage_isSome (value : Option JSString) :
    (emailMessage value).isSome = true ↔ EmailFlagged value := by
  rw [emailMessage_eq]; unfold EmailFlagged
  by_cases h : MissingOrBlank value <;> cases h2 : validateEmailValue value <;> simp [h]

theorem messageMessage_isSome (value : Option JSString) :
    (messageMessage value).isSome = true ↔ MessageFlagged value := by
  rw [messageMessage_eq]; unfold MessageFlagged
  by_cases h : MissingOrBlank value <;> by_cases h2 : valueLength value < 10 <;> simp [h, h2]

/-- The flag computed by the three validation blocks. -/
theorem validateForm_flag (data : FormValues) (w : World) :
    (validateForm data w).2 = true ↔ AnyFlagged data := by
  rw [validateForm_eq]
  unfold AnyFlagged
  simp only [Bool.or_eq_true, nameMessage_isSome, emailMessage_isSome, messageMessage_isSome,
    or_assoc]

theorem applyError_errorContainers (f k : String) (m : Option String) (w : World) :
    (applyError f m w).errorContainers k =
      match m with
      | some m =>
        if k = f then
          (w.errorContainers f).map fun e =>
            { textContent := m, classList := classRemove "hidden" e.classList }
        else w.errorContainers k
      | none => w.errorContainers k := by
  cases m <;> simp [applyError, writeFieldError_errorContainers]

theorem applyError_rest (f : String) (m : Option String) (w : World) :
    (applyError f m w).submitButton = w.submitButton ∧
    (applyError f m w).contactToast = w.contactToast ∧
    (applyError f m w).toastContainer = w.toastContainer ∧
    (applyError f m w).nextNodeId = w.nextNodeId ∧
    (applyError f m w).timers = w.timers ∧
    (applyError f m w).now = w.now ∧
    (applyError f m w).requests = w.requests := by
  cases m <;> simp [applyError, writeFieldError_rest]

theorem applyError_value (f k : String) (m : Option String) (w : World) :
    ((applyError f m w).fields k).map (fun c => c.value) =
      (w.fields k).map (fun c => c.value) := by
  cases m <;> simp [applyError, writeFieldError_value]

theorem validateForm_rest (data : FormValues) (w : World) :
    (validateForm data w).1.submitButton = w.submitButton ∧
    (validateForm data w).1.contactToast = w.contactToast ∧
    (validateForm data w).1.toastContainer = w.toastContainer ∧
    (validateForm data w).1.nextNodeId = w.nextNodeId ∧
    (validateForm data w).1.timers = w.timers ∧
    (validateForm data w).1.now = w.now ∧
    (validateForm data w).1.requests = w.requests := by
  rw [validateForm_eq]
  simp [applyError_rest]

/-- With no field flagged the validation blocks change nothing. -/
theorem validateForm_of_not_flagged (data : FormValues) (w : World) (h : ¬ AnyFlagged data) :
    validateForm data w = (w, false) := by
  unfold AnyFlagged at h
  rw [← nameMessage_isSome, ← emailMessage_isSome, ← messageMessage_isSome] at h
  rw [validateForm_eq]
  cases h1 : nameMessage data.name <;> cases h2 : emailMessage data.email <;>
    cases h3 : messageMessage data.message <;> simp_all [applyError]

/-- The error containers after the validation blocks have run on a cleared document. -/
theorem validateForm_containers (data : FormValues) (w : World) (k : String)
    (e : ErrorContainer) (hk : w.errorContainers k = some e) :
    ∃ e1, (validateForm data (clearFormErrors w)).1.errorContainers k = some e1 ∧
      (Visible e1 ↔ FlaggedField data k) ∧ e1.textContent = expectedText data k := by
  have hc : (clearFormErrors w).errorContainers k
      = some { classList := classAdd "hidden" e.classList, textContent := "" } := by
    simp [clearFormErrors, hk]
  have hv : classContains "hidden" (classAdd "hidden" e.classList) = true :=
    classContains_classAdd_self _ _
  rw [validateForm_eq]
  simp only [applyError_errorContainers, nameMessage_eq, emailMessage_eq, messageMessage_eq]
  unfold FlaggedField NameFlagged EmailFlagged MessageFlagged expectedText Visible
  by_cases k1 : k = "name"
  · subst k1
    by_cases a : MissingOrBlank data.name <;> by_cases b : valueLength data.name < 2 <;>
      by_cases c : MissingOrBlank data.email <;>
      by_cases d : validateEmailValue data.email = false <;>
      by_cases f : MissingOrBlank data.message <;>
      by_cases g : valueLength data.message < 10 <;>
      simp [a, b, c, d, f, g, hc, hv, classContains_classRemove_self]
  · by_cases k2 : k = "email"
    · subst k2
      by_cases a : MissingOrBlank data.name <;> by_cases b : valueLength data.name < 2 <;>
        by_cases c : MissingOrBlank data.email <;>
        by_cases d : validateEmailValue data.email = false <;>
        by_cases f : MissingOrBlank data.message <;>
        by_cases g : valueLength data.message < 10 <;>
        simp [a, b, c, d, f, g, hc, hv, classContains_classRemove_self]
    · by_cases k3 : k = "message"
      · subst k3
        by_cases a : MissingOrBlank data.name <;> by_cases b : valueLength data.name < 2 <;>
          by_cases c : MissingOrBlank data.email <;>
          by_cases d : validateEmailValue data.email = false <;>
          by_cases f : MissingOrBlank data.message <;>
          by_cases g : valueLength data.message < 10 <;>
          simp [a, b, c, d, f, g, hc, hv, classContains_classRemove_self]
      · by_cases a : MissingOrBlank data.name <;> by_cases b : valueLength data.name < 2 <;>
          by_cases c : MissingOrBlank data.email <;>
          by_cases d : validateEmailValue data.email = false <;>
          by_cases f : MissingOrBlank data.message <;>
          by_cases g : valueLength data.message < 10 <;>
          simp [a, b, c, d, f, g, hc, hv, k1, k2, k3]
/-! ## Requests and the submit button along the handler -/

theorem showToastMain_requests (m t : String) (w : World) :
    (showToastMain m t w).requests = w.requests := by
  unfold showToastMain
  cases w.toastContainer <;> rfl

theorem showToast_requests (m t : String) (w : World) :
    (showToast m t w).requests = w.requests := by
  unfold showToast
  cases w.contactToast <;> rfl

theorem showServerError_rest (errors : List (String × Option (List String))) (w : World)
    (field : String) :
    (showServerError errors w field).1.submitButton = w.submitButton ∧
    (showServerError errors w field).1.contactToast = w.contactToast ∧
    (showServerError errors w field).1.toastContainer = w.toastContainer ∧
    (showServerError errors w field).1.nextNodeId = w.nextNodeId ∧
    (showServerError errors w field).1.timers = w.timers ∧
    (showServerError errors w field).1.now = w.now ∧
    (showServerError errors w field).1.requests = w.requests := by
  unfold showServerError
  split
  · exact showFieldError_rest _ _ _
  · simp

/-- The loop over the field errors touches nothing but error containers and controls,
whether it ends normally or by an exception. -/
theorem forEachField_rest (errors : List (String × Option (List String)))
    (ks : List String) (w : World) :
    (forEachField errors ks w).1.submitButton = w.submitButton ∧
    (forEachField errors ks w).1.contactToast = w.contactToast ∧
    (forEachField errors ks w).1.toastContainer = w.toastContainer ∧
    (forEachField errors ks w).1.nextNodeId = w.nextNodeId ∧
    (forEachField errors ks w).1.timers = w.timers ∧
    (forEachField errors ks w).1.now = w.now ∧
    (forEachField errors ks w).1.requests = w.requests := by
  induction ks generalizing w with
  | nil => simp [forEachField]
  | cons k ks ih =>
    have h1 := showServerError_rest errors w k
    simp only [forEachField]
    by_cases ht : (showServerError errors w k).2 = true
    · simp only [ht, if_true]
      exact h1
    · simp only [ht]
      have h2 := ih (showServerError errors w k).1
      simp only [Bool.false_eq_true, if_false]
      refine ⟨h2.1.trans h1.1, h2.2.1.trans h1.2.1, h2.2.2.1.trans h1.2.2.1,
        h2.2.2.2.1.trans h1.2.2.2.1, h2.2.2.2.2.1.trans h1.2.2.2.2.1,
        h2.2.2.2.2.2.1.trans h1.2.2.2.2.2.1, h2.2.2.2.2.2.2.trans h1.2.2.2.2.2.2⟩

theorem handleResult_requests (toast : String → String → World → World)
    (htoast : ∀ m t w, (toast m t w).requests = w.requests) (r : ContactResult) (w : World) :
    (handleResult toast r w).1.requests = w.requests := by
  unfold handleResult
  cases hs : r.success
  · cases he : r.errors
    · simp [htoast]
    · simp [(forEachField_rest _ _ _).2.2.2.2.2.2]
  · simp [clearFormErrors, formReset, htoast]

theorem sendAndHandle_requests (toast : String → String → World → World)
    (htoast : ∀ m t w, (toast m t w).requests = w.requests) (req : Request)
    (fetched : FetchOutcome) (w : World) :
    (sendAndHandle toast req fetched w).1.requests = w.requests ++ [req] := by
  unfold sendAndHandle
  rcases fetched with _ | (_ | _ | r) <;> simp [handleResult_requests toast htoast]

/-! ## The handler, case by case -/

theorem handleContactSubmit_no_button (fetched : FetchOutcome) (w : World)
    (hb : w.submitButton = none) :
    handleContactSubmit fetched w = (Completion.threw, w) := by
  simp only [handleContactSubmit, hb]

theorem handleContactSubmitDebug_no_button (captcha : Captcha) (fetched : FetchOutcome)
    (w : World) (hb : w.submitButton = none) :
    handleContactSubmitDebug captcha fetched w = (Completion.threw, w) := by
  simp only [handleContactSubmitDebug, hb]

theorem handleContactSubmit_flagged (fetched : FetchOutcome) (w : World) (b : SubmitButton)
    (hb : w.submitButton = some b) (h : AnyFlagged (readForm w)) :
    handleContactSubmit fetched w
      = (Completion.normal, (validateForm (readForm w) (clearFormErrors w)).1) := by
  have hf : (validateForm (readForm w) (clearFormErrors w)).2 = true :=
    (validateForm_flag _ _).mpr h
  simp only [handleContactSubmit, hb, readForm_clearFormErrors, hf, if_true]

theorem handleContactSubmitDebug_flagged (captcha : Captcha) (fetched : FetchOutcome)
    (w : World) (b : SubmitButton) (hb : w.submitButton = some b)
    (h : AnyFlagged (readForm w)) :
    handleContactSubmitDebug captcha fetched w
      = (Completion.normal, (validateForm (readForm w) (clearFormErrors w)).1) := by
  have hf : (validateForm (readForm w) (clearFormErrors w)).2 = true :=
    (validateForm_flag _ _).mpr h
  simp only [handleContactSubmitDebug, hb, readForm_clearFormErrors, hf, if_true]

/-- The document when the request is about to be sent: errors cleared, button disabled
and showing the loading markup. -/
theorem handleContactSubmit_valid (fetched : FetchOutcome) (w : World) (b : SubmitButton)
    (hb : w.submitButton = some b) (h : ¬ AnyFlagged (readForm w)) :
    handleContactSubmit fetched w
      = (Completion.normal,
          setButton false b.innerHTML
            (if (sendAndHandle showToastMain
                  ⟨"/ajax/contact/", "POST", "application/json",
                    (readForm w).csrfmiddlewaretoken, (readForm w).name, (readForm w).email,
                    (readForm w).message, none⟩
                  fetched (setButton true loadingMarkup (clearFormErrors w))).2 then
              showToastMain "Network error. Please check your connection and try again."
                "error"
                (sendAndHandle showToastMain
                  ⟨"/ajax/contact/", "POST", "application/json",
                    (readForm w).csrfmiddlewaretoken, (readForm w).name, (readForm w).email,
                    (readForm w).message, none⟩
                  fetched (setButton true loadingMarkup (clearFormErrors w))).1
            else
              (sendAndHandle showToastMain
                  ⟨"/ajax/contact/", "POST", "application/json",
                    (readForm w).csrfmiddlewaretoken, (readForm w).name, (readForm w).email,
                    (readForm w).message, none⟩
                  fetched (setButton true loadingMarkup (clearFormErrors w))).1)) := by
  have hf := validateForm_of_not_flagged (readForm w) (clearFormErrors w) h
  simp only [handleContactSubmit, hb, readForm_clearFormErrors, hf]
  rfl

theorem handleContactSubmitDebug_rejected (fetched : FetchOutcome) (w : World)
    (b : SubmitButton) (hb : w.submitButton = some b) (h : ¬ AnyFlagged (readForm w)) :
    handleContactSubmitDebug Captcha.rejected fetched w
      = (Completion.normal,
          setButton false b.innerHTML (setButton false b.innerHTML
            (showToast "Security verification failed. Please try again." "error"
              (setButton true loadingMarkup (clearFormErrors w))))) := by
  have hf := validateForm_of_not_flagged (readForm w) (clearFormErrors w) h
  simp only [handleContactSubmitDebug, hb, readForm_clearFormErrors, hf]
  rfl

theorem handleContactSubmitDebug_valid (captcha : Captcha) (fetched : FetchOutcome)
    (w : World) (b : SubmitButton)
    (hb : w.submitButton = some b) (h : ¬ AnyFlagged (readForm w))
    (hc : captcha ≠ Captcha.rejected) :
    handleContactSubmitDebug captcha fetched w
      = (Completion.normal,
          setButton false b.innerHTML
            (if (sendAndHandle showToast
                  ⟨"/ajax/contact/", "POST", "application/json",
                    (readForm w).csrfmiddlewaretoken, (readForm w).name, (readForm w).email,
                    (readForm w).message, captcha.dataCaptcha⟩
                  fetched (setButton true loadingMarkup (clearFormErrors w))).2 then
              showToast "Network error. Please check your connection and try again."
                "error"
                (sendAndHandle showToast
                  ⟨"/ajax/contact/", "POST", "application/json",
                    (readForm w).csrfmiddlewaretoken, (readForm w).name, (readForm w).email,
                    (readForm w).message, captcha.dataCaptcha⟩
                  fetched (setButton true loadingMarkup (clearFormErrors w))).1
            else
              (sendAndHandle showToast
                  ⟨"/ajax/contact/", "POST", "application/json",
                    (readForm w).csrfmiddlewaretoken, (readForm w).name, (readForm w).email,
                    (readForm w).message, captcha.dataCaptcha⟩
                  fetched (setButton true loadingMarkup (clearFormErrors w))).1)) := by
  have hf := validateForm_of_not_flagged (readForm w) (clearFormErrors w) h
  cases captcha with
  | rejected => exact absurd rfl hc
  | unavailable =>
    simp only [handleContactSubmitDebug, hb, readForm_clearFormErrors, hf]
    rfl
  | token t =>
    simp only [handleContactSubmitDebug, hb, readForm_clearFormErrors, hf]
    rfl

/-- C1: when at least one of the three fields is flagged by client-side validation, the
handler (either copy) returns without calling `fetch` and without touching the submit
control: the list of issued requests and the button (enabled state and label) are what
they were before the submission. -/
theorem C1_flagged_submission_sends_no_request (captcha : Captcha) (fetched : FetchOutcome)
    (w : World) (h : AnyFlagged (readForm w)) :
    (handleContactSubmit fetched w).2.requests = w.requests ∧
    (handleContactSubmit fetched w).2.submitButton = w.submitButton ∧
    (handleContactSubmitDebug captcha fetched w).2.requests = w.requests ∧
    (handleContactSubmitDebug captcha fetched w).2.submitButton = w.submitButton := by
  cases hb : w.submitButton with
  | none =>
    rw [handleContactSubmit_no_button fetched w hb,
      handleContactSubmitDebug_no_button captcha fetched w hb]
    simp [hb]
  | some b =>
    rw [handleContactSubmit_flagged fetched w b hb h,
      handleContactSubmitDebug_flagged captcha fetched w b hb h]
    simp [validateForm_rest, clearFormErrors, hb]

theorem C1_witness :
    AnyFlagged (readForm (examplePage (js "") (js "a@b.co") (js "hello world"))) ∧
    (handleContactSubmit FetchOutcome.rejected
      (examplePage (js "") (js "a@b.co") (js "hello world"))).2.requests = [] ∧
    (handleContactSubmit FetchOutcome.rejected
      (examplePage (js "") (js "a@b.co") (js "hello world"))).2.submitButton
        = some ⟨false, "Send Message"⟩ ∧
    (handleContactSubmitDebug Captcha.unavailable FetchOutcome.rejected
      (examplePage (js "") (js "a@b.co") (js "hello world"))).2.requests = [] ∧
    (handleContactSubmitDebug Captcha.unavailable FetchOutcome.rejected
      (examplePage (js "") (js "a@b.co") (js "hello world"))).2.submitButton
        = some ⟨false, "Send Message"⟩ :=
  ⟨by decide,
    C1_flagged_submission_sends_no_request Captcha.unavailable FetchOutcome.rejected
      (examplePage (js "") (js "a@b.co") (js "hello world")) (by decide)⟩

/-- C2: for every submitted triple, client-side validation raises its error flag exactly
when some field is flagged, where the name is flagged iff it is missing or blank or
shorter than 2, the email iff it is missing or blank or rejected by `validateEmail`, and
the message iff it is missing or blank or shorter than 10, each from its own value only.
After the validation blocks every error container of the page is visible exactly when
its field is flagged, a blank field showing the `... is required` text and another
flagged field the length or format text; and when validation fails this is the state in
which the handler (either copy) leaves the error containers. -/
theorem C2_validation_flags_exact_subset (captcha : Captcha) (fetched : FetchOutcome)
    (w : World) (b : SubmitButton) (k : String) (e : ErrorContainer)
    (hb : w.submitButton = some b) (hk : w.errorContainers k = some e) :
    ((validateForm (readForm w) (clearFormErrors w)).2 = true ↔ AnyFlagged (readForm w)) ∧
    (∃ e1, (validateForm (readForm w) (clearFormErrors w)).1.errorContainers k = some e1 ∧
      (Visible e1 ↔ FlaggedField (readForm w) k) ∧
      e1.textContent = expectedText (readForm w) k) ∧
    (AnyFlagged (readForm w) →
      ∃ e1, (handleContactSubmit fetched w).2.errorContainers k = some e1 ∧
        (handleContactSubmitDebug captcha fetched w).2.errorContainers k = some e1 ∧
        (Visible e1 ↔ FlaggedField (readForm w) k) ∧
        e1.textContent = expectedText (readForm w) k) := by
  refine ⟨validateForm_flag _ _, validateForm_containers _ w k e hk, ?_⟩
  intro h
  obtain ⟨e1, h1, h2, h3⟩ := validateForm_containers (readForm w) w k e hk
  refine ⟨e1, ?_, ?_, h2, h3⟩
  · rw [handleContactSubmit_flagged fetched w b hb h]
    exact h1
  · rw [handleContactSubmitDebug_flagged captcha fetched w b hb h]
    exact h1
theorem C2_witness :
    pageBadEmail.submitButton = some ⟨false, "Send Message"⟩ ∧
    pageBadEmail.errorContainers "email" = some ⟨["hidden"], ""⟩ ∧
    AnyFlagged (readForm pageBadEmail) ∧
    ∃ e1, (handleContactSubmit FetchOutcome.rejected pageBadEmail).2.errorContainers "email"
        = some e1 ∧
      Visible e1 ∧ e1.textContent = "Please enter a valid email address" := by
  obtain ⟨_, _, h3⟩ := C2_validation_flags_exact_subset Captcha.unavailable
    FetchOutcome.rejected pageBadEmail ⟨false, "Send Message"⟩ "email" ⟨["hidden"], ""⟩ rfl rfl
  obtain ⟨e1, h1, _, hv, ht⟩ := h3 (by decide)
  exact ⟨rfl, rfl, by decide, e1, h1, hv.mpr (by decide), ht.trans (by decide)⟩

/-! ## Valid submissions -/

/-- Counterexample to C3 as stated: a name of two spaces has at least 2 characters, the
email is well shaped and the message has 11 characters, yet the name is flagged with
`Name is required` and no request is issued. -/
theorem C3_counterexample :
    (readForm pageBlankName).name = some (js "  ") ∧
    (readForm pageBlankName).email = some (js "a@b.co") ∧
    (readForm pageBlankName).message = some (js "hello world") ∧
    2 ≤ (js "  ").length ∧ validateEmail (js "a@b.co") = true ∧
    10 ≤ (js "hello world").length ∧
    (handleContactSubmit (FetchOutcome.resolved (JsonBody.object ⟨true, none, none⟩))
      pageBlankName).2.requests = [] ∧
    (handleContactSubmit (FetchOutcome.resolved (JsonBody.object ⟨true, none, none⟩))
      pageBlankName).2.errorContainers "name" = some ⟨[], "Name is required"⟩ := by
  decide

theorem not_anyFlagged_of_valid (data : FormValues) (n e m : JSString)
    (hn : data.name = some n) (he : data.email = some e) (hm : data.message = some m)
    (h1 : ¬ Blank n) (h2 : 2 ≤ n.length) (h3 : validateEmail e = true)
    (h4 : ¬ Blank m) (h5 : 10 ≤ m.length) : ¬ AnyFlagged data := by
  unfold AnyFlagged NameFlagged EmailFlagged MessageFlagged
  rw [hn, he, hm]
  have hb : ¬ Blank e := by
    intro hb
    have : validateEmail e = false := by
      cases hv : validateEmail e
      · rfl
      · obtain ⟨L, D, rfl, hL, hLc, _⟩ := (validateEmail_iff_shape e).mp hv
        cases L with
        | nil => exact absurd rfl hL
        | cons x L =>
          have := hb x (by simp)
          have := (hLc x (by simp)).1
          simp_all
    simp [h3] at this
  simp only [MissingOrBlank, valueLength, validateEmailValue]
  rintro ((h | h) | (h | h) | h | h)
  · exact h1 h
  · omega
  · exact hb h
  · simp [h3] at h
  · exact h4 h
  · omega

/-- C3 (amended): for every submission whose name is not blank and has at least 2
characters, whose email is accepted by `validateEmail`, and whose message is not blank
and has at least 10 characters, the validation blocks flag nothing and leave the cleared
document as it is, and the handler of `js/contact.js` issues exactly one request, a POST
to `/ajax/contact/` carrying the three values; the instrumented copy does the same, with
the token in the body, unless token acquisition fails. -/
theorem C3_valid_submission_is_sent (captcha : Captcha) (fetched : FetchOutcome) (w : World)
    (b : SubmitButton) (n e m : JSString) (hb : w.submitButton = some b)
    (hn : (readForm w).name = some n) (he : (readForm w).email = some e)
    (hm : (readForm w).message = some m)
    (h1 : ¬ Blank n) (h2 : 2 ≤ n.length) (h3 : validateEmail e = true)
    (h4 : ¬ Blank m) (h5 : 10 ≤ m.length) :
    validateForm (readForm w) (clearFormErrors w) = (clearFormErrors w, false) ∧
    (handleContactSubmit fetched w).2.requests
      = w.requests ++ [⟨"/ajax/contact/", "POST", "application/json",
          (readForm w).csrfmiddlewaretoken, some n, some e, some m, none⟩] ∧
    (captcha ≠ Captcha.rejected →
      (handleContactSubmitDebug captcha fetched w).2.requests
        = w.requests ++ [⟨"/ajax/contact/", "POST", "application/json",
            (readForm w).csrfmiddlewaretoken, some n, some e, some m,
            captcha.dataCaptcha⟩]) := by
  have hv := not_anyFlagged_of_valid (readForm w) n e m hn he hm h1 h2 h3 h4 h5
  refine ⟨validateForm_of_not_flagged _ _ hv, ?_, ?_⟩
  · rw [handleContactSubmit_valid fetched w b hb hv, hn, he, hm]
    split_ifs <;>
      simp [setButton, showToastMain_requests,
        sendAndHandle_requests showToastMain showToastMain_requests, clearFormErrors]
  · intro hc
    rw [handleContactSubmitDebug_valid captcha fetched w b hb hv hc, hn, he, hm]
    split_ifs <;>
      simp [setButton, showToast_requests,
        sendAndHandle_requests showToast showToast_requests, clearFormErrors]

theorem C3_witness :
    pageValid.submitButton = some ⟨false, "Send Message"⟩ ∧
    (readForm pageValid).name = some (js "Bob") ∧
    (readForm pageValid).email = some (js "a@b.co") ∧
    (readForm pageValid).message = some (js "hello world") ∧
    ¬ Blank (js "Bob") ∧ 2 ≤ (js "Bob").length ∧ validateEmail (js "a@b.co") = true ∧
    ¬ Blank (js "hello world") ∧ 10 ≤ (js "hello world").length ∧
    (handleContactSubmit FetchOutcome.rejected pageValid).2.requests
      = pageValid.requests ++ [⟨"/ajax/contact/", "POST", "application/json",
          (readForm pageValid).csrfmiddlewaretoken, some (js "Bob"), some (js "a@b.co"),
          some (js "hello world"), none⟩] :=
  ⟨rfl, by decide, by decide, by decide, by decide, by decide, by decide, by decide,
    by decide,
    (C3_valid_submission_is_sent Captcha.unavailable FetchOutcome.rejected pageValid
      ⟨false, "Send Message"⟩ (js "Bob") (js "a@b.co") (js "hello world") rfl
      (by decide) (by decide) (by decide) (by decide) (by decide) (by decide) (by decide)
      (by decide)).2.1⟩

/-! ## The submit control is always restored -/

/-- C6: for every submission that passes client-side validation, whatever the awaited
collaborators do (token obtained, unavailable or refused; request rejected; body
malformed; body `null`, whose handling throws; any response object), when the handler
finishes (either copy) it has completed normally and the submit control is enabled with
the label it had when the submission started. -/
theorem C6_submit_control_restored (captcha : Captcha) (fetched : FetchOutcome) (w : World)
    (b : SubmitButton) (hb : w.submitButton = some b) (hv : ¬ AnyFlagged (readForm w)) :
    (handleContactSubmit fetched w).1 = Completion.normal ∧
    (handleContactSubmit fetched w).2.submitButton = some ⟨false, b.innerHTML⟩ ∧
    (handleContactSubmitDebug captcha fetched w).1 = Completion.normal ∧
    (handleContactSubmitDebug captcha fetched w).2.submitButton
      = some ⟨false, b.innerHTML⟩ := by
  rw [handleContactSubmit_valid fetched w b hb hv]
  by_cases hc : captcha = Captcha.rejected
  · subst hc
    rw [handleContactSubmitDebug_rejected fetched w b hb hv]
    simp [setButton]
  · rw [handleContactSubmitDebug_valid captcha fetched w b hb hv hc]
    simp [setButton]

theorem C6_witness :
    pageValid.submitButton = some ⟨false, "Send Message"⟩ ∧
    ¬ AnyFlagged (readForm pageValid) ∧
    (handleContactSubmit (FetchOutcome.resolved JsonBody.null) pageValid).2.submitButton
      = some ⟨false, "Send Message"⟩ ∧
    (handleContactSubmitDebug Captcha.rejected (FetchOutcome.resolved JsonBody.null)
      pageValid).2.submitButton = some ⟨false, "Send Message"⟩ :=
  ⟨rfl, by decide,
    (C6_submit_control_restored Captcha.rejected (FetchOutcome.resolved JsonBody.null)
      pageValid ⟨false, "Send Message"⟩ rfl (by decide)).2.1,
    (C6_submit_control_restored Captcha.rejected (FetchOutcome.resolved JsonBody.null)
      pageValid ⟨false, "Send Message"⟩ rfl (by decide)).2.2.2⟩
/-! ## Transport failures and token failures -/

theorem clearFormErrors_hidden (w : World) (k : String) (e1 : ErrorContainer)
    (h : (clearFormErrors w).errorContainers k = some e1) : ¬ Visible e1 := by
  simp only [clearFormErrors, Option.map_eq_some'] at h
  obtain ⟨e0, _, rfl⟩ := h
  simp [Visible, classContains_classAdd_self]

/-- C7: when the request is rejected by the transport or the body is not well-formed JSON,
the handler completes normally, shows exactly one toast, of severity `error`, with the
fixed network-error text, and leaves every error container hidden.  In `js/contact.js`
the toast is one node appended to the toast list; in the instrumented copy (the token
step not having failed) it is one rendering of the toast slot, with one timer
registered. -/
theorem C7_transport_failure_shows_network_toast (captcha : Captcha) (fetched : FetchOutcome)
    (w : World) (b : SubmitButton) (children : List ToastNode) (t : ContactToast)
    (hb : w.submitButton = some b) (hv : ¬ AnyFlagged (readForm w))
    (hf : fetched = FetchOutcome.rejected ∨ fetched = FetchOutcome.resolved JsonBody.malformed)
    (hT : w.toastContainer = some children) (ht : w.contactToast = some t)
    (hc : captcha ≠ Captcha.rejected) :
    (handleContactSubmit fetched w).1 = Completion.normal ∧
    (handleContactSubmit fetched w).2.toastContainer
      = some (children ++ [⟨w.nextNodeId,
          ["p-4", "mb-2", "rounded-lg", "shadow-lg", "transform", "transition-all",
            "duration-300", "ease-in-out", "bg-red-500", "text-white"],
          "Network error. Please check your connection and try again.", "", ""⟩]) ∧
    (∀ k e1, (handleContactSubmit fetched w).2.errorContainers k = some e1 → ¬ Visible e1) ∧
    (handleContactSubmitDebug captcha fetched w).1 = Completion.normal ∧
    (handleContactSubmitDebug captcha fetched w).2.contactToast
      = some ⟨classRemove "hidden" t.containerClassList,
          ["p-4", "rounded-lg", "border", "shadow-sm", "transition-all", "duration-300",
            "ease-in-out", "bg-red-50", "text-red-800", "border-red-200", "translate-y-0",
            "opacity-100"],
          "Network error. Please check your connection and try again.", "❌"⟩ ∧
    (handleContactSubmitDebug captcha fetched w).2.timers
      = w.timers ++ [⟨w.now + 5000, Callback.fadeContactToast⟩] ∧
    (∀ k e1, (handleContactSubmitDebug captcha fetched w).2.errorContainers k = some e1 →
      ¬ Visible e1) := by
  rw [handleContactSubmit_valid fetched w b hb hv,
    handleContactSubmitDebug_valid captcha fetched w b hb hv hc]
  have hT1 : (clearFormErrors w).toastContainer = some children := hT
  have ht1 : (clearFormErrors w).contactToast = some t := ht
  rcases hf with rfl | rfl
  · refine ⟨rfl, ?_, ?_, rfl, ?_, ?_, ?_⟩
    · simp [sendAndHandle, showToastMain, setButton, hT1]
      rfl
    · intro k e1 h
      apply clearFormErrors_hidden w k e1
      simpa [sendAndHandle, showToastMain, setButton, hT1] using h
    · simp [sendAndHandle, showToast, setButton, ht1]
      decide
    · simp [sendAndHandle, showToast, setButton, ht1]
      rfl
    · intro k e1 h
      apply clearFormErrors_hidden w k e1
      simpa [sendAndHandle, showToast, setButton, ht1] using h
  · refine ⟨rfl, ?_, ?_, rfl, ?_, ?_, ?_⟩
    · simp [sendAndHandle, showToastMain, setButton, hT1]
      rfl
    · intro k e1 h
      apply clearFormErrors_hidden w k e1
      simpa [sendAndHandle, showToastMain, setButton, hT1] using h
    · simp [sendAndHandle, showToast, setButton, ht1]
      decide
    · simp [sendAndHandle, showToast, setButton, ht1]
      rfl
    · intro k e1 h
      apply clearFormErrors_hidden w k e1
      simpa [sendAndHandle, showToast, setButton, ht1] using h

theorem C7_witness :
    pageValid.submitButton = some ⟨false, "Send Message"⟩ ∧
    ¬ AnyFlagged (readForm pageValid) ∧
    pageValid.toastContainer = some [] ∧
    pageValid.contactToast = some ⟨["hidden"], ["translate-y-[-10px]", "opacity-0"], "", ""⟩ ∧
    (handleContactSubmit FetchOutcome.rejected pageValid).2.toastContainer
      = some ([] ++ [⟨pageValid.nextNodeId,
          ["p-4", "mb-2", "rounded-lg", "shadow-lg", "transform", "transition-all",
            "duration-300", "ease-in-out", "bg-red-500", "text-white"],
          "Network error. Please check your connection and try again.", "", ""⟩]) ∧
    (handleContactSubmitDebug Captcha.unavailable FetchOutcome.rejected pageValid).2.timers
      = pageValid.timers ++ [⟨pageValid.now + 5000, Callback.fadeContactToast⟩] :=
  ⟨rfl, by decide, rfl, rfl,
    (C7_transport_failure_shows_network_toast Captcha.unavailable FetchOutcome.rejected
      pageValid ⟨false, "Send Message"⟩ []
      ⟨["hidden"], ["translate-y-[-10px]", "opacity-0"], "", ""⟩ rfl (by decide)
      (Or.inl rfl) rfl rfl (by decide)).2.1,
    (C7_transport_failure_shows_network_toast Captcha.unavailable FetchOutcome.rejected
      pageValid ⟨false, "Send Message"⟩ []
      ⟨["hidden"], ["translate-y-[-10px]", "opacity-0"], "", ""⟩ rfl (by decide)
      (Or.inl rfl) rfl rfl (by decide)).2.2.2.2.2.1⟩

/-- C8: in the instrumented handler, when a validated submission is made with the
reCAPTCHA provider present and its `execute` call fails, no request is issued, the toast
slot is rendered exactly once (one timer registered) with the error styling and the text
`Security verification failed. Please try again.`, every error container stays hidden,
and the handler completes normally with the submit control enabled and showing its
original label. -/
theorem C8_token_failure_aborts (fetched : FetchOutcome) (w : World) (b : SubmitButton)
    (t : ContactToast) (hb : w.submitButton = some b) (hv : ¬ AnyFlagged (readForm w))
    (ht : w.contactToast = some t) :
    (handleContactSubmitDebug Captcha.rejected fetched w).1 = Completion.normal ∧
    (handleContactSubmitDebug Captcha.rejected fetched w).2.requests = w.requests ∧
    (handleContactSubmitDebug Captcha.rejected fetched w).2.contactToast
      = some ⟨classRemove "hidden" t.containerClassList,
          ["p-4", "rounded-lg", "border", "shadow-sm", "transition-all", "duration-300",
            "ease-in-out", "bg-red-50", "text-red-800", "border-red-200", "translate-y-0",
            "opacity-100"],
          "Security verification failed. Please try again.", "❌"⟩ ∧
    (handleContactSubmitDebug Captcha.rejected fetched w).2.timers
      = w.timers ++ [⟨w.now + 5000, Callback.fadeContactToast⟩] ∧
    (∀ k e1, (handleContactSubmitDebug Captcha.rejected fetched w).2.errorContainers k
      = some e1 → ¬ Visible e1) ∧
    (handleContactSubmitDebug Captcha.rejected fetched w).2.submitButton
      = some ⟨false, b.innerHTML⟩ := by
  rw [handleContactSubmitDebug_rejected fetched w b hb hv]
  have ht1 : (clearFormErrors w).contactToast = some t := ht
  refine ⟨rfl, ?_, ?_, ?_, ?_, rfl⟩
  · simp [showToast, setButton, ht1]
    rfl
  · simp [showToast, setButton, ht1]
    decide
  · simp [showToast, setButton, ht1]
    rfl
  · intro k e1 h
    apply clearFormErrors_hidden w k e1
    simpa [showToast, setButton, ht1] using h

theorem C8_witness :
    pageValid.submitButton = some ⟨false, "Send Message"⟩ ∧
    ¬ AnyFlagged (readForm pageValid) ∧
    pageValid.contactToast = some ⟨["hidden"], ["translate-y-[-10px]", "opacity-0"], "", ""⟩ ∧
    (handleContactSubmitDebug Captcha.rejected FetchOutcome.rejected pageValid).2.requests
      = pageValid.requests ∧
    (handleContactSubmitDebug Captcha.rejected FetchOutcome.rejected pageValid).2.submitButton
      = some ⟨false, "Send Message"⟩ :=
  ⟨rfl, by decide, rfl,
    (C8_token_failure_aborts FetchOutcome.rejected pageValid ⟨false, "Send Message"⟩
      ⟨["hidden"], ["translate-y-[-10px]", "opacity-0"], "", ""⟩ rfl (by decide) rfl).2.1,
    (C8_token_failure_aborts FetchOutcome.rejected pageValid ⟨false, "Send Message"⟩
      ⟨["hidden"], ["translate-y-[-10px]", "opacity-0"], "", ""⟩ rfl (by decide)
      rfl).2.2.2.2.2⟩
/-! ## Handling the response -/

theorem firstMessage_eq_some (errors : List (String × Option (List String)))
    (field m : String) :
    firstMessage errors field = some m ↔ ∃ rest, errors.lookup field = some (some (m :: rest)) := by
  unfold firstMessage
  split
  · rename_i first rest h
    simp [h]
  · rename_i h
    constructor
    · intro h1; cases h1
    · rintro ⟨rest, h1⟩
      exact absurd h1 (h m rest)

theorem mem_keys_of_lookup (errors : List (String × Option (List String))) (field : String)
    (v : Option (List String)) (h : errors.lookup field = some v) :
    field ∈ errors.map Prod.fst := by
  induction errors with
  | nil => simp at h
  | cons p ps ih =>
    obtain ⟨k, v1⟩ := p
    by_cases hk : field = k
    · simp [hk]
    · have hk1 : (field == k) = false := by simpa using hk
      simp only [List.lookup_cons, hk1] at h
      simp [ih h]

/-- The callback of the loop, as a call of `showFieldError` or nothing. -/
theorem showServerError_eq (errors : List (String × Option (List String))) (w : World)
    (field : String) :
    showServerError errors w field =
      match firstMessage errors field with
      | some m => showFieldError field m w
      | none => (w, false) := by
  unfold showServerError firstMessage
  split <;> simp_all

theorem showServerError_plain (errors : List (String × Option (List String))) (w : World)
    (field : String) (hp : plainName field = true) :
    showServerError errors w field = (applyError field (firstMessage errors field) w, false) := by
  rw [showServerError_eq]
  cases firstMessage errors field with
  | none => rfl
  | some m => simp [applyError, showFieldError_plain field m w hp]

/-- When every key is a valid selector the loop visits every key and ends normally. -/
theorem forEachField_plain (errors : List (String × Option (List String)))
    (ks : List String) (w : World) (hp : ∀ k ∈ ks, plainName k = true) :
    forEachField errors ks w
      = (ks.foldl (fun w k => applyError k (firstMessage errors k) w) w, false) := by
  induction ks generalizing w with
  | nil => rfl
  | cons k ks ih =>
    simp only [forEachField, showServerError_plain errors w k (hp k (by simp)),
      Bool.false_eq_true, if_false, List.foldl_cons]
    exact ih _ (fun j hj => hp j (by simp [hj]))

theorem classRemove_idem (c : String) (cs : List String) :
    classRemove c (classRemove c cs) = classRemove c cs := by
  simp [classRemove, List.filter_filter]

theorem applyError_errorContainers_idem (k : String) (m : Option String) (w : World) :
    (applyError k m (applyError k m w)).errorContainers k
      = (applyError k m w).errorContainers k := by
  cases m with
  | none => rfl
  | some m =>
    simp only [applyError_errorContainers, if_true]
    cases w.errorContainers k <;> simp [classRemove_idem]

theorem applyError_errorContainers_of_ne (f k : String) (m : Option String) (w : World)
    (h : k ≠ f) : (applyError f m w).errorContainers k = w.errorContainers k := by
  cases m <;> simp [applyError_errorContainers, h]

theorem applyError_errorContainers_congr (k : String) (m : Option String) (w1 w2 : World)
    (h : w1.errorContainers k = w2.errorContainers k) :
    (applyError k m w1).errorContainers k = (applyError k m w2).errorContainers k := by
  cases m <;> simp [applyError_errorContainers, h]

/-- The error containers after a loop that visits every key. -/
theorem foldl_applyError_errorContainers
    (errors : List (String × Option (List String))) (ks : List String) (w : World)
    (k : String) :
    (ks.foldl (fun w k => applyError k (firstMessage errors k) w) w).errorContainers k
      = if k ∈ ks then (applyError k (firstMessage errors k) w).errorContainers k
        else w.errorContainers k := by
  induction ks generalizing w with
  | nil => simp
  | cons k0 ks ih =>
    rw [List.foldl_cons, ih]
    by_cases h0 : k = k0
    · subst h0
      by_cases h1 : k ∈ ks
      · simp [h1, applyError_errorContainers_idem]
      · simp [h1]
    · by_cases h1 : k ∈ ks
      · simp only [h1, if_true, List.mem_cons, or_true]
        exact applyError_errorContainers_congr k _ _ _
          (applyError_errorContainers_of_ne k0 k _ w h0)
      · simp [h1, h0, applyError_errorContainers_of_ne k0 k _ w h0]

theorem foldl_applyError_value (errors : List (String × Option (List String)))
    (ks : List String) (w : World) (k : String) :
    ((ks.foldl (fun w k => applyError k (firstMessage errors k) w) w).fields k).map
        (fun c => c.value)
      = (w.fields k).map (fun c => c.value) := by
  induction ks generalizing w with
  | nil => simp
  | cons k0 ks ih =>
    rw [List.foldl_cons, ih, applyError_value]
/-- The handler of `js/contact.js` on a validated submission answered by a JSON object. -/
theorem handleContactSubmit_object (r : ContactResult) (w : World) (b : SubmitButton)
    (hb : w.submitButton = some b) (hv : ¬ AnyFlagged (readForm w)) :
    handleContactSubmit (FetchOutcome.resolved (JsonBody.object r)) w
      = (Completion.normal,
          setButton false b.innerHTML
            (if (handleResult showToastMain r
                { setButton true loadingMarkup (clearFormErrors w) with
                  requests := w.requests ++
                    [⟨"/ajax/contact/", "POST", "application/json",
                      (readForm w).csrfmiddlewaretoken, (readForm w).name,
                      (readForm w).email, (readForm w).message, none⟩] }).2 then
              showToastMain "Network error. Please check your connection and try again."
                "error"
                (handleResult showToastMain r
                  { setButton true loadingMarkup (clearFormErrors w) with
                    requests := w.requests ++
                      [⟨"/ajax/contact/", "POST", "application/json",
                        (readForm w).csrfmiddlewaretoken, (readForm w).name,
                        (readForm w).email, (readForm w).message, none⟩] }).1
            else
              (handleResult showToastMain r
                { setButton true loadingMarkup (clearFormErrors w) with
                  requests := w.requests ++
                    [⟨"/ajax/contact/", "POST", "application/json",
                      (readForm w).csrfmiddlewaretoken, (readForm w).name,
                      (readForm w).email, (readForm w).message, none⟩] }).1)) := by
  rw [handleContactSubmit_valid _ w b hb hv]
  rfl

/-- The three outcomes of a validated submission answered by a JSON object, when every
field name of the `errors` mapping is a valid selector.  (1) `success` truthy: one toast
with the success styling is appended, carrying the server message (the default text when
the message is absent or empty), every form control is back at its default value and
every error container is hidden and empty.  (2) Otherwise, with an `errors` mapping: no
toast is appended and no timer registered, the form values are kept, and each error
container of the page shows, visibly, the first message of its field when the mapping
gives that field a non-empty list, and stays hidden and empty when it does not.
(3) Otherwise: one toast with the error styling is appended, carrying the server message
(or the default text), the form values are kept and every error container stays hidden. -/
theorem response_selects_one_outcome (r : ContactResult) (w w1 : World) (b : SubmitButton)
    (children : List ToastNode) (hb : w.submitButton = some b)
    (hv : ¬ AnyFlagged (readForm w)) (hT : w.toastContainer = some children)
    (hw : (handleContactSubmit (FetchOutcome.resolved (JsonBody.object r)) w).2 = w1) :
    (r.success = true →
      w1.toastContainer = some (children ++ [⟨w.nextNodeId,
          ["p-4", "mb-2", "rounded-lg", "shadow-lg", "transform", "transition-all",
            "duration-300", "ease-in-out", "bg-green-500", "text-white"],
          orDefault r.message "Message sent successfully! We\x27ll get back to you soon.",
          "", ""⟩]) ∧
      (∀ k f, w.fields k = some f → ∃ f1, w1.fields k = some f1 ∧ f1.value = f.defaultValue) ∧
      (∀ k e1, w1.errorContainers k = some e1 → ¬ Visible e1 ∧ e1.textContent = "")) ∧
    (r.success = false → ∀ errors, r.errors = some errors →
      (∀ k ∈ errors.map Prod.fst, plainName k = true) →
      w1.toastContainer = some children ∧ w1.timers = w.timers ∧
      (∀ k, (w1.fields k).map (fun c => c.value) = (w.fields k).map (fun c => c.value)) ∧
      (∀ k e, w.errorContainers k = some e →
        ∃ e1, w1.errorContainers k = some e1 ∧
          (∀ m rest, errors.lookup k = some (some (m :: rest)) →
            Visible e1 ∧ e1.textContent = m) ∧
          ((∀ m rest, errors.lookup k ≠ some (some (m :: rest))) →
            ¬ Visible e1 ∧ e1.textContent = ""))) ∧
    (r.success = false → r.errors = none →
      w1.toastContainer = some (children ++ [⟨w.nextNodeId,
          ["p-4", "mb-2", "rounded-lg", "shadow-lg", "transform", "transition-all",
            "duration-300", "ease-in-out", "bg-red-500", "text-white"],
          orDefault r.message "An error occurred. Please try again.", "", ""⟩]) ∧
      (∀ k, (w1.fields k).map (fun c => c.value) = (w.fields k).map (fun c => c.value)) ∧
      (∀ k e1, w1.errorContainers k = some e1 → ¬ Visible e1)) := by
  subst hw
  rw [handleContactSubmit_object r w b hb hv]
  have hT0 : ({ setButton true loadingMarkup (clearFormErrors w) with
      requests := w.requests ++
        [⟨"/ajax/contact/", "POST", "application/json",
          (readForm w).csrfmiddlewaretoken, (readForm w).name, (readForm w).email,
          (readForm w).message, none⟩] } : World).toastContainer = some children := hT
  have hn0 : ({ setButton true loadingMarkup (clearFormErrors w) with
      requests := w.requests ++
        [⟨"/ajax/contact/", "POST", "application/json",
          (readForm w).csrfmiddlewaretoken, (readForm w).name, (readForm w).email,
          (readForm w).message, none⟩] } : World).nextNodeId = w.nextNodeId := rfl
  have ht0 : ({ setButton true loadingMarkup (clearFormErrors w) with
      requests := w.requests ++
        [⟨"/ajax/contact/", "POST", "application/json",
          (readForm w).csrfmiddlewaretoken, (readForm w).name, (readForm w).email,
          (readForm w).message, none⟩] } : World).timers = w.timers := rfl
  have he0 : ({ setButton true loadingMarkup (clearFormErrors w) with
      requests := w.requests ++
        [⟨"/ajax/contact/", "POST", "application/json",
          (readForm w).csrfmiddlewaretoken, (readForm w).name, (readForm w).email,
          (readForm w).message, none⟩] } : World).errorContainers
        = (clearFormErrors w).errorContainers := rfl
  have hf0 : ({ setButton true loadingMarkup (clearFormErrors w) with
      requests := w.requests ++
        [⟨"/ajax/contact/", "POST", "application/json",
          (readForm w).csrfmiddlewaretoken, (readForm w).name, (readForm w).email,
          (readForm w).message, none⟩] } : World).fields = (clearFormErrors w).fields := rfl
  generalize ({ setButton true loadingMarkup (clearFormErrors w) with
      requests := w.requests ++
        [⟨"/ajax/contact/", "POST", "application/json",
          (readForm w).csrfmiddlewaretoken, (readForm w).name, (readForm w).email,
          (readForm w).message, none⟩] } : World) = w0 at hT0 hn0 ht0 he0 hf0 ⊢
  have hval : ∀ k, (w0.fields k).map (fun c => c.value) = (w.fields k).map (fun c => c.value) := by
    intro k
    rw [hf0]
    simp only [clearFormErrors]
    by_cases hk : k = "name" ∨ k = "email" ∨ k = "message"
    · cases hf : w.fields k <;> simp [hk, hf]
    · simp [hk]
  have hhid : ∀ k e1, w0.errorContainers k = some e1 → ¬ Visible e1 := by
    intro k e1 h
    rw [he0] at h
    exact clearFormErrors_hidden w k e1 h
  refine ⟨?_, ?_, ?_⟩
  · intro hs
    have hR : handleResult showToastMain r w0
        = (clearFormErrors (formReset (showToastMain
            (orDefault r.message "Message sent successfully! We\x27ll get back to you soon.")
            "success" w0)), false) := by
      simp [handleResult, hs]
    rw [hR]
    simp only [Bool.false_eq_true, if_false]
    refine ⟨?_, ?_, ?_⟩
    · simp [showToastMain, setButton, hT0, hn0, clearFormErrors, formReset]
    · intro k f hf
      have h1 := hval k
      rw [hf] at h1
      cases hf0k : w0.fields k with
      | none => simp [hf0k] at h1
      | some f0 =>
        have hd : f0.defaultValue = f.defaultValue := by
          have h2 := congrFun hf0 k
          rw [hf0k] at h2
          simp only [clearFormErrors, hf] at h2
          by_cases hk : k = "name" ∨ k = "email" ∨ k = "message"
          · simp [hk] at h2
            rw [h2]
          · simp [hk] at h2
            rw [h2]
        by_cases hk : k = "name" ∨ k = "email" ∨ k = "message"
        · simp [showToastMain, setButton, hT0, clearFormErrors, formReset, hf0k, hk, hd]
        · simp [showToastMain, setButton, hT0, clearFormErrors, formReset, hf0k, hk, hd]
    · intro k e1 h
      simp only [setButton] at h
      refine ⟨clearFormErrors_hidden _ k e1 h, ?_⟩
      simp only [clearFormErrors, Option.map_eq_some'] at h
      obtain ⟨e0, _, rfl⟩ := h
      rfl
  · intro hs errors he hplain
    have hR : handleResult showToastMain r w0
        = ((errors.map Prod.fst).foldl
            (fun w k => applyError k (firstMessage errors k) w) w0, false) := by
      simp only [handleResult, hs, he, Bool.false_eq_true, if_false]
      exact forEachField_plain errors _ w0 hplain
    have hrest := forEachField_rest errors (errors.map Prod.fst) w0
    rw [forEachField_plain errors _ w0 hplain] at hrest
    rw [hR]
    simp only [Bool.false_eq_true, if_false]
    refine ⟨?_, ?_, ?_, ?_⟩
    · simp only [setButton]
      simpa [hT0] using hrest.2.2.1
    · simp only [setButton]
      simpa [ht0] using hrest.2.2.2.2.1
    · intro k
      simp only [setButton]
      rw [foldl_applyError_value]
      exact hval k
    · intro k e hk
      simp only [setButton]
      rw [foldl_applyError_errorContainers]
      have hc : w0.errorContainers k
          = some { classList := classAdd "hidden" e.classList, textContent := "" } := by
        rw [he0]
        simp [clearFormErrors, hk]
      cases hm : firstMessage errors k with
      | none =>
        refine ⟨{ classList := classAdd "hidden" e.classList, textContent := "" }, ?_, ?_, ?_⟩
        · split_ifs <;> simpa [applyError] using hc
        · intro m rest hl
          have := (firstMessage_eq_some errors k m).mpr ⟨rest, hl⟩
          simp [hm] at this
        · intro _
          exact ⟨by simp [Visible, classContains_classAdd_self], rfl⟩
      | some m =>
        obtain ⟨rest, hl⟩ := (firstMessage_eq_some errors k m).mp hm
        have hmem : k ∈ errors.map Prod.fst := mem_keys_of_lookup errors k _ hl
        refine ⟨{ textContent := m,
                  classList := classRemove "hidden" (classAdd "hidden" e.classList) }, ?_, ?_, ?_⟩
        · rw [if_pos hmem, applyError_errorContainers]
          simp [hc]
        · intro m1 rest1 hl1
          rw [hl] at hl1
          simp only [Option.some.injEq, List.cons.injEq] at hl1
          exact ⟨by simp [Visible, classContains_classRemove_self], hl1.1⟩
        · intro hno
          exact absurd hl (hno m rest)
  · intro hs he
    have hR : handleResult showToastMain r w0
        = (showToastMain (orDefault r.message "An error occurred. Please try again.")
            "error" w0, false) := by
      simp [handleResult, hs, he]
    rw [hR]
    simp only [Bool.false_eq_true, if_false]
    refine ⟨?_, ?_, ?_⟩
    · simp [showToastMain, setButton, hT0, hn0]
    · intro k
      rw [← hval k]
      simp [showToastMain, setButton, hT0]
    · intro k e1 h
      apply hhid k e1
      simpa [showToastMain, setButton, hT0] using h

/-- C5 (the code at the failing input): a valid submission is answered by
`{"success": false, "errors": {"a\"b": ["x"], "email": ["Already used"]}}`, a well-formed
JSON object with a falsy `success` and an `errors` mapping in which `email` has a
non-empty list.  The call `showFieldError('a"b', 'x')` throws on its selector, the loop is
left, and the `catch` block runs: the handler of `js/contact.js` appends the network-error
toast and the email error container stays hidden and empty; the instrumented copy renders
the network-error toast in the slot and leaves the email container hidden and empty too. -/
theorem C5_quoted_field_name_shows_network_toast :
    responseQuotedName.success = false ∧
    (∃ errors, responseQuotedName.errors = some errors ∧
      errors.lookup "email" = some (some ["Already used"])) ∧
    ¬ AnyFlagged (readForm pageValid) ∧
    showFieldError "a\"b" "x" pageValid = (pageValid, true) ∧
    (handleContactSubmit (FetchOutcome.resolved (JsonBody.object responseQuotedName))
      pageValid).1 = Completion.normal ∧
    (handleContactSubmit (FetchOutcome.resolved (JsonBody.object responseQuotedName))
      pageValid).2.toastContainer
      = some [⟨0,
          ["p-4", "mb-2", "rounded-lg", "shadow-lg", "transform", "transition-all",
            "duration-300", "ease-in-out", "bg-red-500", "text-white"],
          "Network error. Please check your connection and try again.", "", ""⟩] ∧
    (handleContactSubmit (FetchOutcome.resolved (JsonBody.object responseQuotedName))
      pageValid).2.errorContainers "email" = some ⟨["hidden"], ""⟩ ∧
    (handleContactSubmitDebug Captcha.unavailable
      (FetchOutcome.resolved (JsonBody.object responseQuotedName)) pageValid).2.contactToast
      = some ⟨[],
          ["p-4", "rounded-lg", "border", "shadow-sm", "transition-all", "duration-300",
            "ease-in-out", "bg-red-50", "text-red-800", "border-red-200", "translate-y-0",
            "opacity-100"],
          "Network error. Please check your connection and try again.", "❌"⟩ ∧
    (handleContactSubmitDebug Captcha.unavailable
      (FetchOutcome.resolved (JsonBody.object responseQuotedName)) pageValid).2.errorContainers
      "email" = some ⟨["hidden"], ""⟩ := by
  refine ⟨rfl, ⟨_, rfl, by decide⟩, by decide, ?_, by decide, by decide, by decide, by decide,
    by decide⟩
  have hq : querySelectorName pageValid "a\"b" = NameSelector.syntaxError := by decide
  simp [showFieldError, hq]
/-! ## Every failure is shown to the user -/

theorem orDefault_ne_empty (m : Option String) (fallback : String) (h : fallback ≠ "") :
    orDefault m fallback ≠ "" := by
  unfold orDefault
  cases m with
  | none => exact h
  | some s =>
    by_cases hs : s = ""
    · simp [hs, h]
    · simp [hs]

theorem expectedText_ne_empty (data : FormValues) (k : String) (h : FlaggedField data k) :
    expectedText data k ≠ "" := by
  unfold FlaggedField NameFlagged EmailFlagged MessageFlagged at h
  unfold expectedText
  rcases h with ⟨rfl, h⟩ | ⟨rfl, h⟩ | ⟨rfl, h⟩
  · by_cases a : MissingOrBlank data.name
    · simp [a]
    · have b : valueLength data.name < 2 := h.resolve_left a
      simp [a, b]
  · by_cases a : MissingOrBlank data.email
    · simp [a]
    · have b : validateEmailValue data.email = false := h.resolve_left a
      simp [a, b]
  · by_cases a : MissingOrBlank data.message
    · simp [a]
    · have b : valueLength data.message < 10 := h.resolve_left a
      simp [a, b]

/-- A failed validation leaves a visible, non-empty error container. -/
theorem visible_error_of_flagged (w : World)
    (hs : (w.errorContainers "name").isSome = true ∧ (w.errorContainers "email").isSome = true ∧
      (w.errorContainers "message").isSome = true)
    (h : AnyFlagged (readForm w)) :
    ∃ k e1, (validateForm (readForm w) (clearFormErrors w)).1.errorContainers k = some e1 ∧
      Visible e1 ∧ e1.textContent ≠ "" := by
  have key : ∀ k, (w.errorContainers k).isSome = true → FlaggedField (readForm w) k →
      ∃ k e1, (validateForm (readForm w) (clearFormErrors w)).1.errorContainers k = some e1 ∧
        Visible e1 ∧ e1.textContent ≠ "" := by
    intro k hk hfl
    obtain ⟨e, he⟩ := Option.isSome_iff_exists.mp hk
    obtain ⟨e1, h1, h2, h3⟩ := validateForm_containers (readForm w) w k e he
    exact ⟨k, e1, h1, h2.mpr hfl, by rw [h3]; exact expectedText_ne_empty _ _ hfl⟩
  rcases h with h | h | h
  · exact key "name" hs.1 (Or.inl ⟨rfl, h⟩)
  · exact key "email" hs.2.1 (Or.inr (Or.inl ⟨rfl, h⟩))
  · exact key "message" hs.2.2 (Or.inr (Or.inr ⟨rfl, h⟩))

/-- Whether it throws or not, `showFieldError` leaves the error containers of the other
fields as they were. -/
theorem showFieldError_other (f m k : String) (w : World) (hne : k ≠ f) :
    (showFieldError f m w).1.errorContainers k = w.errorContainers k := by
  cases ht : (showFieldError f m w).2
  · rw [showFieldError_errorContainers f m w ht, writeFieldError_errorContainers]
    simp [hne]
  · rw [showFieldError_thrown f m w ht]

/-- Unless it throws, `showFieldError` leaves the error container of its field visible
with the message. -/
theorem showFieldError_shows (f m : String) (w : World) (e : ErrorContainer)
    (hk : w.errorContainers f = some e) (ht : (showFieldError f m w).2 = false) :
    ∃ e1, (showFieldError f m w).1.errorContainers f = some e1 ∧ Visible e1 ∧
      e1.textContent = m := by
  refine ⟨{ textContent := m, classList := classRemove "hidden" e.classList }, ?_, ?_, rfl⟩
  · rw [showFieldError_errorContainers f m w ht, writeFieldError_errorContainers]
    simp [hk]
  · simp [Visible, classContains_classRemove_self]

/-- One step of the loop keeps a container that shows the first message of its field. -/
theorem showServerError_keeps (errors : List (String × Option (List String))) (w : World)
    (j k m : String) (hm : firstMessage errors k = some m)
    (hsh : ∃ e1, w.errorContainers k = some e1 ∧ Visible e1 ∧ e1.textContent = m) :
    ∃ e1, (showServerError errors w j).1.errorContainers k = some e1 ∧ Visible e1 ∧
      e1.textContent = m := by
  rw [showServerError_eq]
  by_cases hjk : k = j
  · subst hjk
    rw [hm]
    cases ht : (showFieldError k m w).2
    · obtain ⟨e0, h0, _⟩ := hsh
      exact showFieldError_shows k m w e0 h0 ht
    · simp only []
      rw [showFieldError_thrown k m w ht]
      exact hsh
  · cases hj : firstMessage errors j with
    | none => exact hsh
    | some mj =>
      simp only []
      rw [showFieldError_other j mj k w hjk]
      exact hsh

/-- One step of the loop removes no error container. -/
theorem showServerError_isSome (errors : List (String × Option (List String))) (w : World)
    (j k : String) (h : (w.errorContainers k).isSome = true) :
    ((showServerError errors w j).1.errorContainers k).isSome = true := by
  rw [showServerError_eq]
  cases hj : firstMessage errors j with
  | none => exact h
  | some mj =>
    simp only []
    by_cases hjk : k = j
    · subst hjk
      cases ht : (showFieldError k mj w).2
      · obtain ⟨e, he⟩ := Option.isSome_iff_exists.mp h
        obtain ⟨e1, h1, _⟩ := showFieldError_shows k mj w e he ht
        simp [h1]
      · rw [showFieldError_thrown k mj w ht]
        exact h
    · rw [showFieldError_other j mj k w hjk]
      exact h

theorem forEachField_keeps (errors : List (String × Option (List String)))
    (ks : List String) (w : World) (k m : String) (hm : firstMessage errors k = some m)
    (hsh : ∃ e1, w.errorContainers k = some e1 ∧ Visible e1 ∧ e1.textContent = m) :
    ∃ e1, (forEachField errors ks w).1.errorContainers k = some e1 ∧ Visible e1 ∧
      e1.textContent = m := by
  induction ks generalizing w with
  | nil => exact hsh
  | cons j ks ih =>
    have h1 := showServerError_keeps errors w j k m hm hsh
    simp only [forEachField]
    by_cases ht : (showServerError errors w j).2 = true
    · simp only [ht, if_true]
      exact h1
    · simp only [ht, Bool.false_eq_true, if_false]
      exact ih _ h1

/-- The loop over the field errors either is left by an exception or leaves the
container of every listed field of the page visible with the first message of the field. -/
theorem forEachField_shows (errors : List (String × Option (List String)))
    (ks : List String) (w : World) (k m : String) (hmem : k ∈ ks)
    (hm : firstMessage errors k = some m) (hk : (w.errorContainers k).isSome = true) :
    (forEachField errors ks w).2 = true ∨
      ∃ e1, (forEachField errors ks w).1.errorContainers k = some e1 ∧ Visible e1 ∧
        e1.textContent = m := by
  induction ks generalizing w with
  | nil => simp at hmem
  | cons j ks ih =>
    simp only [forEachField]
    by_cases ht : (showServerError errors w j).2 = true
    · simp only [ht, if_true]
      exact Or.inl trivial
    · simp only [ht, Bool.false_eq_true, if_false]
      by_cases hjk : k = j
      · subst hjk
        right
        apply forEachField_keeps errors ks _ k m hm
        obtain ⟨e, he⟩ := Option.isSome_iff_exists.mp hk
        have ht1 : (showFieldError k m w).2 = false := by
          rw [showServerError_eq, hm] at ht
          simpa using ht
        rw [showServerError_eq, hm]
        exact showFieldError_shows k m w e he ht1
      · have hmem1 : k ∈ ks := by
          rcases List.mem_cons.mp hmem with h | h
          · exact absurd h hjk
          · exact h
        exact ih _ hmem1 (showServerError_isSome errors w j k hk)

/-- A field-error response naming a field of the page with a first message either makes
the branch throw or leaves that container visible with that message, whatever
`showToast` is in scope. -/
theorem visible_error_of_field_errors (toast : String → String → World → World)
    (r : ContactResult) (w0 : World) (errors : List (String × Option (List String)))
    (k m : String) (rest : List String) (e : ErrorContainer)
    (hs : r.success = false) (he : r.errors = some errors)
    (hl : errors.lookup k = some (some (m :: rest))) (hk : w0.errorContainers k = some e) :
    (handleResult toast r w0).2 = true ∨
      ∃ e1, (handleResult toast r w0).1.errorContainers k = some e1 ∧ Visible e1 ∧
        e1.textContent = m := by
  have hm : firstMessage errors k = some m := (firstMessage_eq_some errors k m).mpr ⟨rest, hl⟩
  have hmem : k ∈ errors.map Prod.fst := mem_keys_of_lookup errors k _ hl
  simp only [handleResult, hs, he, Bool.false_eq_true, if_false]
  exact forEachField_shows errors _ w0 k m hmem hm (by simp [hk])

/-- The field-error branch touches nothing but error containers and controls. -/
theorem handleResult_field_errors_rest (toast : String → String → World → World)
    (r : ContactResult) (w0 : World) (errors : List (String × Option (List String)))
    (hs : r.success = false) (he : r.errors = some errors) :
    (handleResult toast r w0).1.contactToast = w0.contactToast ∧
    (handleResult toast r w0).1.toastContainer = w0.toastContainer ∧
    (handleResult toast r w0).1.timers = w0.timers ∧
    (handleResult toast r w0).1.now = w0.now := by
  simp only [handleResult, hs, he, Bool.false_eq_true, if_false]
  have h := forEachField_rest errors (errors.map Prod.fst) w0
  exact ⟨h.2.1, h.2.2.1, h.2.2.2.2.1, h.2.2.2.2.2.1⟩

/-- Counterexample to C9 as stated: a validated submission answered by
`{success: false, errors: {}}` on a page satisfying the DOM contract.  Neither copy of the
handler shows anything: no toast node is appended and the toast slot stays hidden with no
timer registered, and no error container is visible. -/
theorem C9_counterexample :
    (handleContactSubmit (FetchOutcome.resolved (JsonBody.object ⟨false, none, some []⟩))
      pageValid).2.toastContainer = some [] ∧
    (∀ k e1, (handleContactSubmit (FetchOutcome.resolved (JsonBody.object
      ⟨false, none, some []⟩)) pageValid).2.errorContainers k = some e1 → ¬ Visible e1) ∧
    (handleContactSubmitDebug Captcha.unavailable
      (FetchOutcome.resolved (JsonBody.object ⟨false, none, some []⟩)) pageValid).2.contactToast
      = some ⟨["hidden"], ["translate-y-[-10px]", "opacity-0"], "", ""⟩ ∧
    (handleContactSubmitDebug Captcha.unavailable
      (FetchOutcome.resolved (JsonBody.object ⟨false, none, some []⟩)) pageValid).2.timers
      = [] ∧
    (∀ k e1, (handleContactSubmitDebug Captcha.unavailable (FetchOutcome.resolved
      (JsonBody.object ⟨false, none, some []⟩)) pageValid).2.errorContainers k = some e1 →
      ¬ Visible e1) := by
  refine ⟨by decide, ?_, by decide, by decide, ?_⟩
  · intro k e1 h
    rw [handleContactSubmit_valid _ pageValid ⟨false, "Send Message"⟩ rfl (by decide)] at h
    exact clearFormErrors_hidden pageValid k e1 h
  · intro k e1 h
    rw [handleContactSubmitDebug_valid _ _ pageValid ⟨false, "Send Message"⟩ rfl (by decide)
      (by decide)] at h
    exact clearFormErrors_hidden pageValid k e1 h

theorem showToastMain_appended (m t : String) (w0 : World) (children : List ToastNode)
    (hT : w0.toastContainer = some children) (hm : m ≠ "") :
    ∃ node, (showToastMain m t w0).toastContainer = some (children ++ [node]) ∧
      node.message ≠ "" := by
  simp only [showToastMain, hT]
  exact ⟨_, rfl, hm⟩

theorem showToast_rendered (m t : String) (w0 : World) (t0 : ContactToast)
    (ht : w0.contactToast = some t0) (hm : m ≠ "") :
    ∃ t1, (showToast m t w0).contactToast = some t1 ∧
      classContains "hidden" t1.containerClassList = false ∧ t1.messageText ≠ "" ∧
      (showToast m t w0).timers = w0.timers ++ [⟨w0.now + 5000, Callback.fadeContactToast⟩] := by
  simp only [showToast, ht]
  exact ⟨_, rfl, classContains_classRemove_self _ _, hm, trivial⟩

/-- The plain handler after a validated submission that fails. -/
theorem plain_signal_of_failure (fetched : FetchOutcome) (w : World) (b : SubmitButton)
    (children : List ToastNode) (hb : w.submitButton = some b)
    (hv : ¬ AnyFlagged (readForm w)) (hT : w.toastContainer = some children)
    (hf : fetched = FetchOutcome.rejected ∨
      fetched = FetchOutcome.resolved JsonBody.malformed ∨
      fetched = FetchOutcome.resolved JsonBody.null ∨
      ∃ r, fetched = FetchOutcome.resolved (JsonBody.object r) ∧ ShowableFailure w r) :
    ErrorShown (handleContactSubmit fetched w).2 ∨
      ToastAppended w (handleContactSubmit fetched w).2 := by
  rw [handleContactSubmit_valid fetched w b hb hv]
  have hnet : ("Network error. Please check your connection and try again." : String) ≠ "" := by
    decide
  have hgen : ("An error occurred. Please try again." : String) ≠ "" := by decide
  rcases hf with rfl | rfl | rfl | ⟨r, rfl, hs, hr⟩
  · right
    obtain ⟨node, h1, h2⟩ := showToastMain_appended
      "Network error. Please check your connection and try again." "error"
      (sendAndHandle showToastMain _ FetchOutcome.rejected
        (setButton true loadingMarkup (clearFormErrors w))).1 children hT hnet
    exact ⟨children, node, hT, h1, h2⟩
  · right
    obtain ⟨node, h1, h2⟩ := showToastMain_appended
      "Network error. Please check your connection and try again." "error"
      (sendAndHandle showToastMain _ (FetchOutcome.resolved JsonBody.malformed)
        (setButton true loadingMarkup (clearFormErrors w))).1 children hT hnet
    exact ⟨children, node, hT, h1, h2⟩
  · right
    obtain ⟨node, h1, h2⟩ := showToastMain_appended
      "Network error. Please check your connection and try again." "error"
      (sendAndHandle showToastMain _ (FetchOutcome.resolved JsonBody.null)
        (setButton true loadingMarkup (clearFormErrors w))).1 children hT hnet
    exact ⟨children, node, hT, h1, h2⟩
  · rcases hr with he | ⟨errors, k, m, rest, e, he, hl, hm, hk⟩
    · right
      simp only [sendAndHandle, handleResult, hs, he, Bool.false_eq_true, if_false]
      obtain ⟨node, h1, h2⟩ := showToastMain_appended
        (orDefault r.message "An error occurred. Please try again.") "error"
        { setButton true loadingMarkup (clearFormErrors w) with
          requests := (setButton true loadingMarkup (clearFormErrors w)).requests ++
            [⟨"/ajax/contact/", "POST", "application/json",
              (readForm w).csrfmiddlewaretoken, (readForm w).name, (readForm w).email,
              (readForm w).message, none⟩] } children hT
        (orDefault_ne_empty _ _ hgen)
      exact ⟨children, node, hT, h1, h2⟩
    · simp only [sendAndHandle]
      have hshow := visible_error_of_field_errors showToastMain r
        { setButton true loadingMarkup (clearFormErrors w) with
          requests := (setButton true loadingMarkup (clearFormErrors w)).requests ++
            [⟨"/ajax/contact/", "POST", "application/json",
              (readForm w).csrfmiddlewaretoken, (readForm w).name, (readForm w).email,
              (readForm w).message, none⟩] }
        errors k m rest { classList := classAdd "hidden" e.classList, textContent := "" }
        hs he hl (by simp [setButton, clearFormErrors, hk])
      have hrest := handleResult_field_errors_rest showToastMain r
        { setButton true loadingMarkup (clearFormErrors w) with
          requests := (setButton true loadingMarkup (clearFormErrors w)).requests ++
            [⟨"/ajax/contact/", "POST", "application/json",
              (readForm w).csrfmiddlewaretoken, (readForm w).name, (readForm w).email,
              (readForm w).message, none⟩] } errors hs he
      rcases hshow with hthrown | ⟨e1, h1, h2, h3⟩
      · right
        rw [if_pos hthrown]
        obtain ⟨node, h4, h5⟩ := showToastMain_appended
          "Network error. Please check your connection and try again." "error" _ children
          (hrest.2.1.trans hT) hnet
        exact ⟨children, node, hT, h4, h5⟩
      · by_cases hthrown : (handleResult showToastMain r
            { setButton true loadingMarkup (clearFormErrors w) with
              requests := (setButton true loadingMarkup (clearFormErrors w)).requests ++
                [⟨"/ajax/contact/", "POST", "application/json",
                  (readForm w).csrfmiddlewaretoken, (readForm w).name, (readForm w).email,
                  (readForm w).message, none⟩] }).2 = true
        · right
          rw [if_pos hthrown]
          obtain ⟨node, h4, h5⟩ := showToastMain_appended
            "Network error. Please check your connection and try again." "error" _ children
            (hrest.2.1.trans hT) hnet
          exact ⟨children, node, hT, h4, h5⟩
        · left
          rw [if_neg hthrown]
          exact ⟨k, e1, h1, h2, by rw [h3]; exact hm⟩

/-- The instrumented handler after a validated submission that fails once the token step
is over. -/
theorem debug_signal_of_failure (captcha : Captcha) (fetched : FetchOutcome) (w : World)
    (b : SubmitButton) (t : ContactToast) (hb : w.submitButton = some b)
    (hv : ¬ AnyFlagged (readForm w)) (ht : w.contactToast = some t)
    (hc : captcha ≠ Captcha.rejected)
    (hf : fetched = FetchOutcome.rejected ∨
      fetched = FetchOutcome.resolved JsonBody.malformed ∨
      fetched = FetchOutcome.resolved JsonBody.null ∨
      ∃ r, fetched = FetchOutcome.resolved (JsonBody.object r) ∧ ShowableFailure w r) :
    ErrorShown (handleContactSubmitDebug captcha fetched w).2 ∨
      ToastRendered w (handleContactSubmitDebug captcha fetched w).2 := by
  rw [handleContactSubmitDebug_valid captcha fetched w b hb hv hc]
  have hnet : ("Network error. Please check your connection and try again." : String) ≠ "" := by
    decide
  have hgen : ("An error occurred. Please try again." : String) ≠ "" := by decide
  rcases hf with rfl | rfl | rfl | ⟨r, rfl, hs, hr⟩
  · right
    obtain ⟨t1, h1, h2, h3, h4⟩ := showToast_rendered
      "Network error. Please check your connection and try again." "error"
      (sendAndHandle showToast _ FetchOutcome.rejected
        (setButton true loadingMarkup (clearFormErrors w))).1 t ht hnet
    exact ⟨t1, h1, h2, h3, h4⟩
  · right
    obtain ⟨t1, h1, h2, h3, h4⟩ := showToast_rendered
      "Network error. Please check your connection and try again." "error"
      (sendAndHandle showToast _ (FetchOutcome.resolved JsonBody.malformed)
        (setButton true loadingMarkup (clearFormErrors w))).1 t ht hnet
    exact ⟨t1, h1, h2, h3, h4⟩
  · right
    obtain ⟨t1, h1, h2, h3, h4⟩ := showToast_rendered
      "Network error. Please check your connection and try again." "error"
      (sendAndHandle showToast _ (FetchOutcome.resolved JsonBody.null)
        (setButton true loadingMarkup (clearFormErrors w))).1 t ht hnet
    exact ⟨t1, h1, h2, h3, h4⟩
  · rcases hr with he | ⟨errors, k, m, rest, e, he, hl, hm, hk⟩
    · right
      simp only [sendAndHandle, handleResult, hs, he, Bool.false_eq_true, if_false]
      obtain ⟨t1, h1, h2, h3, h4⟩ := showToast_rendered
        (orDefault r.message "An error occurred. Please try again.") "error"
        { setButton true loadingMarkup (clearFormErrors w) with
          requests := (setButton true loadingMarkup (clearFormErrors w)).requests ++
            [⟨"/ajax/contact/", "POST", "application/json",
              (readForm w).csrfmiddlewaretoken, (readForm w).name, (readForm w).email,
              (readForm w).message, captcha.dataCaptcha⟩] } t ht
        (orDefault_ne_empty _ _ hgen)
      exact ⟨t1, h1, h2, h3, h4⟩
    · simp only [sendAndHandle]
      have hshow := visible_error_of_field_errors showToast r
        { setButton true loadingMarkup (clearFormErrors w) with
          requests := (setButton true loadingMarkup (clearFormErrors w)).requests ++
            [⟨"/ajax/contact/", "POST", "application/json",
              (readForm w).csrfmiddlewaretoken, (readForm w).name, (readForm w).email,
              (readForm w).message, captcha.dataCaptcha⟩] }
        errors k m rest { classList := classAdd "hidden" e.classList, textContent := "" }
        hs he hl (by simp [setButton, clearFormErrors, hk])
      have hrest := handleResult_field_errors_rest showToast r
        { setButton true loadingMarkup (clearFormErrors w) with
          requests := (setButton true loadingMarkup (clearFormErrors w)).requests ++
            [⟨"/ajax/contact/", "POST", "application/json",
              (readForm w).csrfmiddlewaretoken, (readForm w).name, (readForm w).email,
              (readForm w).message, captcha.dataCaptcha⟩] } errors hs he
      by_cases hthrown : (handleResult showToast r
          { setButton true loadingMarkup (clearFormErrors w) with
            requests := (setButton true loadingMarkup (clearFormErrors w)).requests ++
              [⟨"/ajax/contact/", "POST", "application/json",
                (readForm w).csrfmiddlewaretoken, (readForm w).name, (readForm w).email,
                (readForm w).message, captcha.dataCaptcha⟩] }).2 = true
      · right
        rw [if_pos hthrown]
        obtain ⟨t1, h1, h2, h3, h4⟩ := showToast_rendered
          "Network error. Please check your connection and try again." "error" _ t
          (hrest.1.trans ht) hnet
        refine ⟨t1, h1, h2, h3, ?_⟩
        rw [hrest.2.2.1, hrest.2.2.2] at h4
        exact h4
      · left
        rw [if_neg hthrown]
        rcases hshow with h | ⟨e1, h1, h2, h3⟩
        · exact absurd h hthrown
        · exact ⟨k, e1, h1, h2, by rw [h3]; exact hm⟩

/-- The instrumented handler after a validated submission whose token step fails. -/
theorem debug_signal_of_token_failure (fetched : FetchOutcome) (w : World)
    (b : SubmitButton) (t : ContactToast) (hb : w.submitButton = some b)
    (hv : ¬ AnyFlagged (readForm w)) (ht : w.contactToast = some t) :
    ToastRendered w (handleContactSubmitDebug Captcha.rejected fetched w).2 := by
  rw [handleContactSubmitDebug_rejected fetched w b hb hv]
  obtain ⟨t1, h1, h2, h3, h4⟩ := showToast_rendered
    "Security verification failed. Please try again." "error"
    (setButton true loadingMarkup (clearFormErrors w)) t ht (by decide)
  exact ⟨t1, h1, h2, h3, h4⟩

/-- C9 (amended): on a page satisfying the DOM contract, every submission attempt that
fails by client validation, by token acquisition, by a rejected request, by a malformed
or `null` body, or by a response object with a falsy `success` that either has no
`errors` mapping or whose mapping gives some field with an error container on the page a
list starting with a non-empty message, ends with the handler completing normally and a
visible signal: an error container visible with non-empty text, or a toast (a node
appended by `js/contact.js`, the slot rendered by the instrumented copy). -/
theorem C9_failures_are_shown (captcha : Captcha) (fetched : FetchOutcome) (w : World)
    (b : SubmitButton) (children : List ToastNode) (t : ContactToast)
    (hb : w.submitButton = some b)
    (hs : (w.errorContainers "name").isSome = true ∧ (w.errorContainers "email").isSome = true ∧
      (w.errorContainers "message").isSome = true)
    (hT : w.toastContainer = some children) (ht : w.contactToast = some t)
    (hfail : FailedAttempt w fetched ∨ captcha = Captcha.rejected) :
    (FailedAttempt w fetched →
      (handleContactSubmit fetched w).1 = Completion.normal ∧
      (ErrorShown (handleContactSubmit fetched w).2 ∨
        ToastAppended w (handleContactSubmit fetched w).2)) ∧
    (handleContactSubmitDebug captcha fetched w).1 = Completion.normal ∧
    (ErrorShown (handleContactSubmitDebug captcha fetched w).2 ∨
      ToastRendered w (handleContactSubmitDebug captcha fetched w).2) := by
  by_cases hv : AnyFlagged (readForm w)
  · have hsig := visible_error_of_flagged w hs hv
    rw [handleContactSubmit_flagged fetched w b hb hv,
      handleContactSubmitDebug_flagged captcha fetched w b hb hv]
    exact ⟨fun _ => ⟨rfl, Or.inl hsig⟩, rfl, Or.inl hsig⟩
  · refine ⟨?_, ?_, ?_⟩
    · intro hf
      refine ⟨?_, plain_signal_of_failure fetched w b children hb hv hT (hf.resolve_left hv)⟩
      rw [handleContactSubmit_valid fetched w b hb hv]
    · by_cases hc : captcha = Captcha.rejected
      · subst hc
        rw [handleContactSubmitDebug_rejected fetched w b hb hv]
      · rw [handleContactSubmitDebug_valid captcha fetched w b hb hv hc]
    · by_cases hc : captcha = Captcha.rejected
      · subst hc
        exact Or.inr (debug_signal_of_token_failure fetched w b t hb hv ht)
      · have hf : FailedAttempt w fetched := hfail.resolve_right hc
        exact debug_signal_of_failure captcha fetched w b t hb hv ht hc (hf.resolve_left hv)

theorem C9_witness :
    pageValid.submitButton = some ⟨false, "Send Message"⟩ ∧
    ((pageValid.errorContainers "name").isSome = true ∧
      (pageValid.errorContainers "email").isSome = true ∧
      (pageValid.errorContainers "message").isSome = true) ∧
    pageValid.toastContainer = some [] ∧
    pageValid.contactToast = some ⟨["hidden"], ["translate-y-[-10px]", "opacity-0"], "", ""⟩ ∧
    FailedAttempt pageValid (FetchOutcome.resolved (JsonBody.object
      ⟨false, some "Server busy", none⟩)) ∧
    (ErrorShown (handleContactSubmit (FetchOutcome.resolved (JsonBody.object
        ⟨false, some "Server busy", none⟩)) pageValid).2 ∨
      ToastAppended pageValid (handleContactSubmit (FetchOutcome.resolved (JsonBody.object
        ⟨false, some "Server busy", none⟩)) pageValid).2) :=
  have hf : FailedAttempt pageValid (FetchOutcome.resolved (JsonBody.object
      ⟨false, some "Server busy", none⟩)) :=
    Or.inr (Or.inr (Or.inr (Or.inr ⟨_, rfl, rfl, Or.inl rfl⟩)))
  ⟨rfl, by decide, rfl, rfl, hf,
    ((C9_failures_are_shown Captcha.unavailable _ pageValid ⟨false, "Send Message"⟩ []
      ⟨["hidden"], ["translate-y-[-10px]", "opacity-0"], "", ""⟩ rfl (by decide) rfl rfl
      (Or.inl hf)).1 hf).2⟩
/-! ## The toast slot and its timers -/

theorem toastStyle_cases (type : String) :
    toastStyle type = ("✅", "bg-green-50", "text-green-800", "border-green-200") ∨
    toastStyle type = ("❌", "bg-red-50", "text-red-800", "border-red-200") ∨
    toastStyle type = ("ℹ️", "bg-blue-50", "text-blue-800", "border-blue-200") := by
  unfold toastStyle
  split_ifs <;> simp

/-- What `showToast` of `static/js/contact.js` does when the toast elements exist. -/
theorem showToast_some (m type : String) (w : World) (t : ContactToast)
    (h : w.contactToast = some t) :
    showToast m type w =
      { w with
        contactToast := some ⟨classRemove "hidden" t.containerClassList, shownClassList type,
          m, (toastStyle type).1⟩
        timers := w.timers ++ [⟨w.now + 5000, Callback.fadeContactToast⟩] } := by
  simp only [showToast, h, shownClassList]
  rcases toastStyle_cases type with hs | hs | hs <;> rw [hs] <;> rfl

/-- The fade-out callback on a visible toast in its shown state. -/
theorem fire_fade_shown (w : World) (c : List String) (type m icon : String)
    (h : w.contactToast = some ⟨c, shownClassList type, m, icon⟩)
    (hc : classContains "hidden" c = false) :
    fire Callback.fadeContactToast w =
      { w with
        contactToast := some ⟨c, fadedClassList type, m, icon⟩
        timers := w.timers ++ [⟨w.now + 300, Callback.hideContactToast⟩] } := by
  simp only [fire, h, hc, shownClassList, fadedClassList]
  rcases toastStyle_cases type with hs | hs | hs <;> rw [hs] <;> rfl

/-- The fade-out callback on a hidden toast does nothing. -/
theorem fire_fade_hidden (w : World) (t : ContactToast) (h : w.contactToast = some t)
    (hc : classContains "hidden" t.containerClassList = true) :
    fire Callback.fadeContactToast w = w := by
  simp [fire, h, hc]

theorem fire_hide (w : World) (t : ContactToast) (h : w.contactToast = some t) :
    fire Callback.hideContactToast w =
      { w with contactToast := some { t with
          containerClassList := classAdd "hidden" t.containerClassList } } := by
  simp [fire, h]

theorem runDue_of_step_none (t n : Nat) (w : World) (h : step t w = none) :
    runDue t n w = w := by
  cases n <;> simp [runDue, h]

theorem runDue_of_step_some (t n : Nat) (w w1 : World) (h : step t w = some w1) :
    runDue t (n + 1) w = runDue t n w1 := by
  simp [runDue, h]

theorem step_fire (τ : Nat) (w : World) (tm : Timer) (h : earliest w.timers = some tm)
    (hd : tm.due ≤ τ) :
    step τ w = some (fire tm.callback
      { w with timers := w.timers.erase tm, now := max w.now tm.due }) := by
  simp [step, h, hd]

theorem step_wait (τ : Nat) (w : World) (tm : Timer) (h : earliest w.timers = some tm)
    (hd : τ < tm.due) : step τ w = none := by
  simp [step, h, Nat.not_le.mpr hd]

theorem step_idle (τ : Nat) (w : World) (h : w.timers = []) : step τ w = none := by
  simp [step, h, earliest]

theorem showToast_withToast (m type : String) (w : World) (T : ContactToast)
    (ts : List Timer) (now : Nat) :
    showToast m type (withToast w T ts now) =
      withToast w ⟨classRemove "hidden" T.containerClassList, shownClassList type, m,
        (toastStyle type).1⟩ (ts ++ [⟨now + 5000, Callback.fadeContactToast⟩]) now := by
  rw [showToast_some m type (withToast w T ts now) T rfl]
  rfl

/-- Timeline of a visible toast with two fade-out timers pending, the second due more
than 300 ms after the first. -/
theorem timeline_two_fades (w : World) (c : List String) (type m icon : String)
    (a b now0 τ : Nat) (hc : classContains "hidden" c = false) (h0 : now0 ≤ a)
    (hab : a + 300 < b) (hτ : now0 ≤ τ) :
    (τ < a →
      advanceTo τ (withToast w ⟨c, shownClassList type, m, icon⟩
        [⟨a, Callback.fadeContactToast⟩, ⟨b, Callback.fadeContactToast⟩] now0)
      = withToast w ⟨c, shownClassList type, m, icon⟩
        [⟨a, Callback.fadeContactToast⟩, ⟨b, Callback.fadeContactToast⟩] τ) ∧
    (a ≤ τ → τ < a + 300 →
      advanceTo τ (withToast w ⟨c, shownClassList type, m, icon⟩
        [⟨a, Callback.fadeContactToast⟩, ⟨b, Callback.fadeContactToast⟩] now0)
      = withToast w ⟨c, fadedClassList type, m, icon⟩
        [⟨b, Callback.fadeContactToast⟩, ⟨a + 300, Callback.hideContactToast⟩] τ) ∧
    (a + 300 ≤ τ → τ < b →
      advanceTo τ (withToast w ⟨c, shownClassList type, m, icon⟩
        [⟨a, Callback.fadeContactToast⟩, ⟨b, Callback.fadeContactToast⟩] now0)
      = withToast w ⟨classAdd "hidden" c, fadedClassList type, m, icon⟩
        [⟨b, Callback.fadeContactToast⟩] τ) ∧
    (b ≤ τ →
      advanceTo τ (withToast w ⟨c, shownClassList type, m, icon⟩
        [⟨a, Callback.fadeContactToast⟩, ⟨b, Callback.fadeContactToast⟩] now0)
      = withToast w ⟨classAdd "hidden" c, fadedClassList type, m, icon⟩ [] τ) := by
  have hfuel : fuel (withToast w ⟨c, shownClassList type, m, icon⟩
      [⟨a, Callback.fadeContactToast⟩, ⟨b, Callback.fadeContactToast⟩] now0).timers = 4 := rfl
  have he1 : earliest [(⟨a, Callback.fadeContactToast⟩ : Timer), ⟨b, Callback.fadeContactToast⟩]
      = some ⟨a, Callback.fadeContactToast⟩ := by
    simp [earliest, show ¬ b < a by omega]
  -- the first timer fires
  have hs1 : a ≤ τ → step τ (withToast w ⟨c, shownClassList type, m, icon⟩
        [⟨a, Callback.fadeContactToast⟩, ⟨b, Callback.fadeContactToast⟩] now0)
      = some (withToast w ⟨c, fadedClassList type, m, icon⟩
        [⟨b, Callback.fadeContactToast⟩, ⟨a + 300, Callback.hideContactToast⟩] a) := by
    intro h
    rw [step_fire τ _ ⟨a, Callback.fadeContactToast⟩ he1 h]
    rw [fire_fade_shown _ c type m icon rfl hc]
    simp [withToast, Nat.max_eq_right h0]
  have he2 : earliest [(⟨b, Callback.fadeContactToast⟩ : Timer), ⟨a + 300, Callback.hideContactToast⟩]
      = some ⟨a + 300, Callback.hideContactToast⟩ := by
    simp [earliest, hab]
  -- the hide timer of the first call fires
  have hs2 : a + 300 ≤ τ → step τ (withToast w ⟨c, fadedClassList type, m, icon⟩
        [⟨b, Callback.fadeContactToast⟩, ⟨a + 300, Callback.hideContactToast⟩] a)
      = some (withToast w ⟨classAdd "hidden" c, fadedClassList type, m, icon⟩
        [⟨b, Callback.fadeContactToast⟩] (a + 300)) := by
    intro h
    rw [step_fire τ _ ⟨a + 300, Callback.hideContactToast⟩ he2 h]
    rw [fire_hide _ ⟨c, fadedClassList type, m, icon⟩ rfl]
    simp [withToast]
  have he3 : earliest [(⟨b, Callback.fadeContactToast⟩ : Timer)]
      = some ⟨b, Callback.fadeContactToast⟩ := by
    simp [earliest]
  -- the timer of the second call fires on a hidden toast
  have hs3 : b ≤ τ → step τ (withToast w ⟨classAdd "hidden" c, fadedClassList type, m, icon⟩
        [⟨b, Callback.fadeContactToast⟩] (a + 300))
      = some (withToast w ⟨classAdd "hidden" c, fadedClassList type, m, icon⟩ [] b) := by
    intro h
    rw [step_fire τ _ ⟨b, Callback.fadeContactToast⟩ he3 h]
    rw [fire_fade_hidden _ ⟨classAdd "hidden" c, fadedClassList type, m, icon⟩ rfl
      (classContains_classAdd_self _ _)]
    simp [withToast, Nat.max_eq_right (show a + 300 ≤ b by omega)]
  unfold advanceTo
  rw [hfuel]
  refine ⟨?_, ?_, ?_, ?_⟩
  · intro h
    rw [runDue_of_step_none _ _ _ (step_wait τ _ _ he1 h)]
    simp [withToast, Nat.max_eq_right hτ]
  · intro h1 h2
    rw [runDue_of_step_some _ _ _ _ (hs1 h1),
      runDue_of_step_none _ _ _ (step_wait τ _ _ he2 h2)]
    simp [withToast, Nat.max_eq_right h1]
  · intro h1 h2
    rw [runDue_of_step_some _ _ _ _ (hs1 (by omega)), runDue_of_step_some _ _ _ _ (hs2 h1),
      runDue_of_step_none _ _ _ (step_wait τ _ _ he3 h2)]
    simp [withToast, Nat.max_eq_right h1]
  · intro h1
    rw [runDue_of_step_some _ _ _ _ (hs1 (by omega)),
      runDue_of_step_some _ _ _ _ (hs2 (by omega)), runDue_of_step_some _ _ _ _ (hs3 h1),
      runDue_of_step_none _ _ _ (step_idle τ _ rfl)]
    simp [withToast, Nat.max_eq_right h1]

/-- Timeline of a visible toast with one fade-out timer pending. -/
theorem timeline_one_fade (w : World) (c : List String) (type m icon : String)
    (a now0 τ : Nat) (hc : classContains "hidden" c = false) (h0 : now0 ≤ a)
    (h1 : a ≤ τ) (h2 : τ < a + 300) :
    advanceTo τ (withToast w ⟨c, shownClassList type, m, icon⟩
        [⟨a, Callback.fadeContactToast⟩] now0)
      = withToast w ⟨c, fadedClassList type, m, icon⟩
        [⟨a + 300, Callback.hideContactToast⟩] τ := by
  have hfuel : fuel (withToast w ⟨c, shownClassList type, m, icon⟩
      [⟨a, Callback.fadeContactToast⟩] now0).timers = 2 := rfl
  have he1 : earliest [(⟨a, Callback.fadeContactToast⟩ : Timer)]
      = some ⟨a, Callback.fadeContactToast⟩ := by
    simp [earliest]
  have hs1 : step τ (withToast w ⟨c, shownClassList type, m, icon⟩
        [⟨a, Callback.fadeContactToast⟩] now0)
      = some (withToast w ⟨c, fadedClassList type, m, icon⟩
        [⟨a + 300, Callback.hideContactToast⟩] a) := by
    rw [step_fire τ _ ⟨a, Callback.fadeContactToast⟩ he1 h1]
    rw [fire_fade_shown _ c type m icon rfl hc]
    simp [withToast, Nat.max_eq_right h0]
  have he2 : earliest [(⟨a + 300, Callback.hideContactToast⟩ : Timer)]
      = some ⟨a + 300, Callback.hideContactToast⟩ := by
    simp [earliest]
  unfold advanceTo
  rw [hfuel, runDue_of_step_some _ _ _ _ hs1,
    runDue_of_step_none _ _ _ (step_wait τ _ _ he2 h2)]
  simp [withToast, Nat.max_eq_right h1]

/-- Timeline of a toast with the hide timer of an earlier call pending before the
fade-out timer of the current call. -/
theorem timeline_hide_then_fade (w : World) (T : ContactToast) (a b now0 τ : Nat)
    (h0 : now0 ≤ a) (hab : a < b) (hτ : now0 ≤ τ) :
    (τ < a →
      advanceTo τ (withToast w T
        [⟨a, Callback.hideContactToast⟩, ⟨b, Callback.fadeContactToast⟩] now0)
      = withToast w T
        [⟨a, Callback.hideContactToast⟩, ⟨b, Callback.fadeContactToast⟩] τ) ∧
    (a ≤ τ → τ < b →
      advanceTo τ (withToast w T
        [⟨a, Callback.hideContactToast⟩, ⟨b, Callback.fadeContactToast⟩] now0)
      = withToast w { T with containerClassList := classAdd "hidden" T.containerClassList }
        [⟨b, Callback.fadeContactToast⟩] τ) ∧
    (b ≤ τ →
      advanceTo τ (withToast w T
        [⟨a, Callback.hideContactToast⟩, ⟨b, Callback.fadeContactToast⟩] now0)
      = withToast w { T with containerClassList := classAdd "hidden" T.containerClassList }
        [] τ) := by
  have hfuel : fuel (withToast w T
      [⟨a, Callback.hideContactToast⟩, ⟨b, Callback.fadeContactToast⟩] now0).timers = 3 := rfl
  have he1 : earliest [(⟨a, Callback.hideContactToast⟩ : Timer), ⟨b, Callback.fadeContactToast⟩]
      = some ⟨a, Callback.hideContactToast⟩ := by
    simp [earliest, show ¬ b < a by omega]
  have hs1 : a ≤ τ → step τ (withToast w T
        [⟨a, Callback.hideContactToast⟩, ⟨b, Callback.fadeContactToast⟩] now0)
      = some (withToast w { T with containerClassList := classAdd "hidden" T.containerClassList }
        [⟨b, Callback.fadeContactToast⟩] a) := by
    intro h
    rw [step_fire τ _ ⟨a, Callback.hideContactToast⟩ he1 h]
    rw [fire_hide _ T rfl]
    simp [withToast, Nat.max_eq_right h0]
  have he3 : earliest [(⟨b, Callback.fadeContactToast⟩ : Timer)]
      = some ⟨b, Callback.fadeContactToast⟩ := by
    simp [earliest]
  have hs3 : b ≤ τ → step τ (withToast w
        { T with containerClassList := classAdd "hidden" T.containerClassList }
        [⟨b, Callback.fadeContactToast⟩] a)
      = some (withToast w { T with containerClassList := classAdd "hidden" T.containerClassList }
        [] b) := by
    intro h
    rw [step_fire τ _ ⟨b, Callback.fadeContactToast⟩ he3 h]
    rw [fire_fade_hidden _ { T with containerClassList := classAdd "hidden" T.containerClassList }
      rfl (classContains_classAdd_self _ _)]
    simp [withToast, Nat.max_eq_right (show a ≤ b by omega)]
  unfold advanceTo
  rw [hfuel]
  refine ⟨?_, ?_, ?_⟩
  · intro h
    rw [runDue_of_step_none _ _ _ (step_wait τ _ _ he1 h)]
    simp [withToast, Nat.max_eq_right hτ]
  · intro h1 h2
    rw [runDue_of_step_some _ _ _ _ (hs1 h1),
      runDue_of_step_none _ _ _ (step_wait τ _ _ he3 h2)]
    simp [withToast, Nat.max_eq_right h1]
  · intro h1
    rw [runDue_of_step_some _ _ _ _ (hs1 (by omega)), runDue_of_step_some _ _ _ _ (hs3 h1),
      runDue_of_step_none _ _ _ (step_idle τ _ rfl)]
    simp [withToast, Nat.max_eq_right h1]

theorem advanceTo_idle (w : World) (T : ContactToast) (now0 τ : Nat) (h : now0 ≤ τ) :
    advanceTo τ (withToast w T [] now0) = withToast w T [] τ := by
  simp [advanceTo, withToast, fuel, runDue, Nat.max_eq_right h]

theorem eq_withToast (w : World) (t : ContactToast) (ht : w.contactToast = some t)
    (hq : w.timers = []) : w = withToast w t [] w.now := by
  cases w
  simp only [withToast] at ht hq ⊢
  subst ht hq
  rfl

theorem two_toasts_before_fade_aux (w : World) (t : ContactToast) (n0 t1 t2 : Nat)
    (m1 type1 m2 type2 : String) (hnow : n0 ≤ t1) (h1 : t1 ≤ t2) (h2 : t2 < t1 + 5000) :
    showToastAt t2 m2 type2 (showToastAt t1 m1 type1 (withToast w t [] n0))
      = withToast w ⟨classRemove "hidden" t.containerClassList, shownClassList type2, m2,
          (toastStyle type2).1⟩
        [⟨t1 + 5000, Callback.fadeContactToast⟩, ⟨t2 + 5000, Callback.fadeContactToast⟩] t2 := by
  unfold showToastAt
  rw [advanceTo_idle _ _ _ _ hnow, showToast_withToast, List.nil_append]
  have hA : earliest [(⟨t1 + 5000, Callback.fadeContactToast⟩ : Timer)]
      = some ⟨t1 + 5000, Callback.fadeContactToast⟩ := by
    simp [earliest]
  have hadv : advanceTo t2 (withToast w
        ⟨classRemove "hidden" t.containerClassList, shownClassList type1, m1,
          (toastStyle type1).1⟩
        [⟨t1 + 5000, Callback.fadeContactToast⟩] t1)
      = withToast w ⟨classRemove "hidden" t.containerClassList, shownClassList type1, m1,
          (toastStyle type1).1⟩ [⟨t1 + 5000, Callback.fadeContactToast⟩] t2 := by
    unfold advanceTo
    rw [runDue_of_step_none _ _ _ (step_wait t2 _ _ hA h2)]
    simp [withToast, Nat.max_eq_right h1]
  rw [hadv, showToast_withToast]
  simp [withToast, classRemove_idem]

theorem two_toasts_during_fade_aux (w : World) (t : ContactToast) (n0 t1 t2 : Nat)
    (m1 type1 m2 type2 : String) (hnow : n0 ≤ t1) (h1 : t1 + 5000 ≤ t2)
    (h2 : t2 < t1 + 5300) :
    showToastAt t2 m2 type2 (showToastAt t1 m1 type1 (withToast w t [] n0))
      = withToast w ⟨classRemove "hidden" t.containerClassList, shownClassList type2, m2,
          (toastStyle type2).1⟩
        [⟨t1 + 5300, Callback.hideContactToast⟩, ⟨t2 + 5000, Callback.fadeContactToast⟩] t2 := by
  unfold showToastAt
  rw [advanceTo_idle _ _ _ _ hnow, showToast_withToast, List.nil_append]
  have hadv := timeline_one_fade w
    (classRemove "hidden" t.containerClassList) type1 m1 (toastStyle type1).1 (t1 + 5000) t1 t2
    (classContains_classRemove_self _ _) (by omega) h1 (by omega)
  rw [hadv, showToast_withToast]
  simp [withToast, classRemove_idem]

/-- The document after two calls of the single-slot `showToast`, the second one made
while the fade-out timer of the first is pending. -/
theorem two_toasts_before_fade (w : World) (t : ContactToast) (t1 t2 : Nat)
    (m1 type1 m2 type2 : String) (ht : w.contactToast = some t) (hq : w.timers = [])
    (hnow : w.now ≤ t1) (h1 : t1 ≤ t2) (h2 : t2 < t1 + 5000) :
    showToastAt t2 m2 type2 (showToastAt t1 m1 type1 w)
      = withToast w ⟨classRemove "hidden" t.containerClassList, shownClassList type2, m2,
          (toastStyle type2).1⟩
        [⟨t1 + 5000, Callback.fadeContactToast⟩, ⟨t2 + 5000, Callback.fadeContactToast⟩] t2 := by
  have key := two_toasts_before_fade_aux w t w.now t1 t2 m1 type1 m2 type2 hnow h1 h2
  rwa [← eq_withToast w t ht hq] at key

/-- The document after two calls of the single-slot `showToast`, the second one made
during the 300 ms fade-out of the first. -/
theorem two_toasts_during_fade (w : World) (t : ContactToast) (t1 t2 : Nat)
    (m1 type1 m2 type2 : String) (ht : w.contactToast = some t) (hq : w.timers = [])
    (hnow : w.now ≤ t1) (h1 : t1 + 5000 ≤ t2) (h2 : t2 < t1 + 5300) :
    showToastAt t2 m2 type2 (showToastAt t1 m1 type1 w)
      = withToast w ⟨classRemove "hidden" t.containerClassList, shownClassList type2, m2,
          (toastStyle type2).1⟩
        [⟨t1 + 5300, Callback.hideContactToast⟩, ⟨t2 + 5000, Callback.fadeContactToast⟩] t2 := by
  have key := two_toasts_during_fade_aux w t w.now t1 t2 m1 type1 m2 type2 hnow h1 h2
  rwa [← eq_withToast w t ht hq] at key
/-- Counterexample to C10 as stated: `showToast` at time 0 and again at time 100, so that
`t1 < t2 < t1 + 5300`.  Just before 5100 the timer of the second call is pending; at 5100
(the second toast has had its 5000 ms) the container is still shown and the timer of the
second call has run and registered a hide timer for 5400; the container is only hidden
at 5300, which is not before 5100. -/
theorem C10_counterexample :
    (advanceTo 5099 pageTwoToastsClose).timers
      = [⟨5100, Callback.fadeContactToast⟩, ⟨5300, Callback.hideContactToast⟩] ∧
    (advanceTo 5100 pageTwoToastsClose).timers
      = [⟨5300, Callback.hideContactToast⟩, ⟨5400, Callback.hideContactToast⟩] ∧
    ((advanceTo 5100 pageTwoToastsClose).contactToast.map
      fun t => classContains "hidden" t.containerClassList) = some false ∧
    ((advanceTo 5299 pageTwoToastsClose).contactToast.map
      fun t => classContains "hidden" t.containerClassList) = some false ∧
    ((advanceTo 5300 pageTwoToastsClose).contactToast.map
      fun t => classContains "hidden" t.containerClassList) = some true ∧
    ¬ (0 + 5300 < 100 + 5000) := by
  decide

/-- C10 (amended): in the single-slot `showToast`, a later call does not cancel the timer
of an earlier one.  If `showToast` is called at `t1` and again at `t2` with
`t1 + 300 < t2 < t1 + 5300` and nothing else touches the toast, then the second call at
once re-renders the slot with the new message, icon and style; the container stays shown
with the new message until `t1 + 5300` and is hidden at `t1 + 5300`, which is before
`t2 + 5000`; the timer of the second call is then still pending, and when it runs, at
`t2 + 5000`, it changes nothing and leaves no timer behind. -/
theorem C10_earlier_timer_hides_newer_toast (w w2 : World) (t : ContactToast) (t1 t2 : Nat)
    (m1 type1 m2 type2 : String) (ht : w.contactToast = some t) (hq : w.timers = [])
    (hnow : w.now ≤ t1) (h1 : t1 + 300 < t2) (h2 : t2 < t1 + 5300)
    (hw : showToastAt t2 m2 type2 (showToastAt t1 m1 type1 w) = w2) :
    w2.contactToast = some ⟨classRemove "hidden" t.containerClassList, shownClassList type2,
      m2, (toastStyle type2).1⟩ ∧
    (∀ τ, t2 ≤ τ → τ < t1 + 5300 →
      ∃ T, (advanceTo τ w2).contactToast = some T ∧ T.messageText = m2 ∧ ¬ ToastHidden T) ∧
    (∃ T, (advanceTo (t1 + 5300) w2).contactToast = some T ∧ T.messageText = m2 ∧
      ToastHidden T) ∧
    t1 + 5300 < t2 + 5000 ∧
    (advanceTo (t1 + 5300) w2).timers = [⟨t2 + 5000, Callback.fadeContactToast⟩] ∧
    (∀ τ, t2 + 5000 ≤ τ →
      (advanceTo τ w2).contactToast = (advanceTo (t1 + 5300) w2).contactToast ∧
      (advanceTo τ w2).timers = []) := by
  subst hw
  have hvis : classContains "hidden" (classRemove "hidden" t.containerClassList) = false :=
    classContains_classRemove_self _ _
  have hhid : classContains "hidden"
      (classAdd "hidden" (classRemove "hidden" t.containerClassList)) = true :=
    classContains_classAdd_self _ _
  by_cases hcase : t2 < t1 + 5000
  · rw [two_toasts_before_fade w t t1 t2 m1 type1 m2 type2 ht hq hnow (by omega) hcase]
    have tl := fun τ (hτ : t2 ≤ τ) =>
      timeline_two_fades w (classRemove "hidden" t.containerClassList) type2 m2
        (toastStyle type2).1 (t1 + 5000) (t2 + 5000) t2 τ hvis (by omega) (by omega) hτ
    refine ⟨rfl, ?_, ?_, by omega, ?_, ?_⟩
    · intro τ hτ1 hτ2
      by_cases hτ3 : τ < t1 + 5000
      · rw [(tl τ hτ1).1 hτ3]
        exact ⟨_, rfl, rfl, by simp [ToastHidden, hvis]⟩
      · rw [(tl τ hτ1).2.1 (by omega) (by omega)]
        exact ⟨_, rfl, rfl, by simp [ToastHidden, hvis]⟩
    · rw [(tl (t1 + 5300) (by omega)).2.2.1 (by omega) (by omega)]
      exact ⟨_, rfl, rfl, hhid⟩
    · rw [(tl (t1 + 5300) (by omega)).2.2.1 (by omega) (by omega)]
      rfl
    · intro τ hτ
      rw [(tl τ (by omega)).2.2.2 hτ, (tl (t1 + 5300) (by omega)).2.2.1 (by omega) (by omega)]
      exact ⟨rfl, rfl⟩
  · rw [two_toasts_during_fade w t t1 t2 m1 type1 m2 type2 ht hq hnow (by omega) h2]
    have tl := fun τ (hτ : t2 ≤ τ) =>
      timeline_hide_then_fade w ⟨classRemove "hidden" t.containerClassList,
        shownClassList type2, m2, (toastStyle type2).1⟩ (t1 + 5300) (t2 + 5000) t2 τ
        (by omega) (by omega) hτ
    refine ⟨rfl, ?_, ?_, by omega, ?_, ?_⟩
    · intro τ hτ1 hτ2
      rw [(tl τ hτ1).1 hτ2]
      exact ⟨_, rfl, rfl, by simp [ToastHidden, hvis]⟩
    · rw [(tl (t1 + 5300) (by omega)).2.1 (by omega) (by omega)]
      exact ⟨_, rfl, rfl, hhid⟩
    · rw [(tl (t1 + 5300) (by omega)).2.1 (by omega) (by omega)]
      rfl
    · intro τ hτ
      rw [(tl τ (by omega)).2.2 hτ, (tl (t1 + 5300) (by omega)).2.1 (by omega) (by omega)]
      exact ⟨rfl, rfl⟩

theorem C10_witness :
    (examplePage [] [] []).contactToast
      = some ⟨["hidden"], ["translate-y-[-10px]", "opacity-0"], "", ""⟩ ∧
    (examplePage [] [] []).timers = [] ∧ (examplePage [] [] []).now ≤ 0 ∧
    0 + 300 < 1000 ∧ 1000 < 0 + 5300 ∧
    (∃ T, (advanceTo (0 + 5300) pageTwoToasts).contactToast = some T ∧ T.messageText = "two" ∧
      ToastHidden T) ∧
    (advanceTo (0 + 5300) pageTwoToasts).timers = [⟨1000 + 5000, Callback.fadeContactToast⟩] :=
  ⟨rfl, rfl, by decide, by decide, by decide,
    (C10_earlier_timer_hides_newer_toast (examplePage [] [] []) pageTwoToasts
      ⟨["hidden"], ["translate-y-[-10px]", "opacity-0"], "", ""⟩ 0 1000 "one" "error" "two"
      "success" rfl rfl (by decide) (by decide) (by decide) rfl).2.2.1,
    (C10_earlier_timer_hides_newer_toast (examplePage [] [] []) pageTwoToasts
      ⟨["hidden"], ["translate-y-[-10px]", "opacity-0"], "", ""⟩ 0 1000 "one" "error" "two"
      "success" rfl rfl (by decide) (by decide) (by decide) rfl).2.2.2.2.1⟩
/-! ## The event loop runs every due timer -/

theorem earliest_eq_none (ts : List Timer) : earliest ts = none ↔ ts = [] := by
  cases ts with
  | nil => simp [earliest]
  | cons x xs =>
    simp only [earliest]
    cases h : earliest xs with
    | none => simp
    | some y => by_cases hy : y.due < x.due <;> simp [hy]

theorem earliest_mem (ts : List Timer) (tm : Timer) (h : earliest ts = some tm) : tm ∈ ts := by
  induction ts generalizing tm with
  | nil => simp [earliest] at h
  | cons x xs ih =>
    simp only [earliest] at h
    cases hx : earliest xs with
    | none =>
      simp only [hx, Option.some.injEq] at h
      simp [h]
    | some y =>
      simp only [hx] at h
      by_cases hy : y.due < x.due
      · simp only [hy, if_true, Option.some.injEq] at h
        subst h
        simp [ih y hx]
      · simp only [hy, if_false, Option.some.injEq] at h
        simp [h]

theorem earliest_le (ts : List Timer) (tm : Timer) (h : earliest ts = some tm) :
    ∀ x ∈ ts, tm.due ≤ x.due := by
  induction ts generalizing tm with
  | nil => simp
  | cons x xs ih =>
    simp only [earliest] at h
    cases hx : earliest xs with
    | none =>
      simp only [hx, Option.some.injEq] at h
      subst h
      have hnil := (earliest_eq_none xs).mp hx
      simp [hnil]
    | some y =>
      simp only [hx] at h
      by_cases hy : y.due < x.due
      · simp only [hy, if_true, Option.some.injEq] at h
        subst h
        intro z hz
        rcases List.mem_cons.mp hz with rfl | hz
        · omega
        · exact ih y hx z hz
      · simp only [hy, if_false, Option.some.injEq] at h
        subst h
        intro z hz
        rcases List.mem_cons.mp hz with rfl | hz
        · exact Nat.le_refl _
        · have := ih y hx z hz
          omega

theorem fuel_append (ts us : List Timer) : fuel (ts ++ us) = fuel ts + fuel us := by
  induction ts with
  | nil => simp [fuel]
  | cons x xs ih =>
    obtain ⟨d, cb⟩ := x
    cases cb <;> simp [fuel, ih] <;> omega

theorem fuel_erase (ts : List Timer) (tm : Timer) (h : tm ∈ ts) :
    fuel (ts.erase tm) + fuel [tm] = fuel ts := by
  induction ts with
  | nil => simp at h
  | cons x xs ih =>
    by_cases hx : x = tm
    · subst hx
      rw [List.erase_cons_head]
      have := fuel_append [x] xs
      simp only [List.singleton_append] at this
      omega
    · have hmem : tm ∈ xs := by
        rcases List.mem_cons.mp h with rfl | h1
        · exact absurd rfl hx
        · exact h1
      have hne : (x == tm) = false := by simpa using hx
      rw [List.erase_cons_tail (by simp [hne])]
      have h1 := fuel_append [x] (xs.erase tm)
      have h2 := fuel_append [x] xs
      simp only [List.singleton_append] at h1 h2
      have := ih hmem
      omega

theorem fire_fuel (tm : Timer) (w : World) :
    fuel (fire tm.callback w).timers < fuel w.timers + fuel [tm] := by
  obtain ⟨d, cb⟩ := tm
  cases cb with
  | fadeContactToast =>
    simp only [fire]
    cases w.contactToast with
    | none => simp [fuel]
    | some t =>
      by_cases hh : classContains "hidden" t.containerClassList = true
      · simp [hh, fuel]
      · simp [hh, fuel, fuel_append]
  | hideContactToast =>
    simp only [fire]
    cases w.contactToast <;> simp [fuel]
  | fadeToastNode nodeId =>
    simp only [fire]
    cases w.toastContainer with
    | none => simp [fuel]
    | some children =>
      by_cases hh : (children.any fun n => n.nodeId == nodeId) = true
      · simp only [hh, if_true, fuel_append]
        simp [fuel]
      · simp only [hh]
        simp [fuel]
  | removeToastNode nodeId =>
    simp only [fire]
    cases w.toastContainer <;> simp [fuel]

theorem step_fuel (t : Nat) (w w1 : World) (h : step t w = some w1) :
    fuel w1.timers < fuel w.timers := by
  unfold step at h
  cases he : earliest w.timers with
  | none => simp [he] at h
  | some tm =>
    simp only [he] at h
    by_cases hd : tm.due ≤ t
    · simp only [hd, if_true, Option.some.injEq] at h
      subst h
      have h1 := fire_fuel tm { w with timers := w.timers.erase tm, now := max w.now tm.due }
      have h2 := fuel_erase w.timers tm (earliest_mem _ _ he)
      simp only at h1
      omega
    · simp [hd] at h

theorem runDue_complete (t n : Nat) (w : World) (h : fuel w.timers ≤ n) :
    step t (runDue t n w) = none := by
  induction n generalizing w with
  | zero =>
    have hnil : w.timers = [] := by
      cases hw : w.timers with
      | nil => rfl
      | cons x xs =>
        rw [hw] at h
        obtain ⟨d, cb⟩ := x
        cases cb <;> simp [fuel] at h
    simp [runDue, step, hnil, earliest]
  | succ n ih =>
    cases hs : step t w with
    | none => simp [runDue, hs]
    | some w1 =>
      have := step_fuel t w w1 hs
      simp only [runDue, hs]
      exact ih w1 (by omega)

/-- The fuel given by `advanceTo` is enough: once time has advanced to `t`, every pending
timer is due after `t`. -/
theorem advanceTo_runs_all_due (t : Nat) (w : World) :
    ∀ tm ∈ (advanceTo t w).timers, t < tm.due := by
  intro tm hm
  have hs := runDue_complete t (fuel w.timers) w (Nat.le_refl _)
  have hm1 : tm ∈ (runDue t (fuel w.timers) w).timers := hm
  unfold step at hs
  cases he : earliest (runDue t (fuel w.timers) w).timers with
  | none =>
    rw [(earliest_eq_none _).mp he] at hm1
    simp at hm1
  | some e =>
    simp only [he] at hs
    by_cases hd : e.due ≤ t
    · simp [hd] at hs
    · have := earliest_le _ e he tm hm1
      omega

end DomainFinder
